import Mathlib

/-!
Verification of the Upleex super-admin panel client (Next.js/TypeScript) via a
shallow embedding in Lean.

Modelling conventions, used consistently below:
* A possibly-absent JavaScript value (`null`/`undefined`) is `Option`.
* JavaScript string truthiness: `none` and `some ""` are falsy (`truthy`, `jsOr`,
  `jsOrD` mirror `a || b` on strings).
* An awaited axios call is an `Outcome α := Except ApiError (Option (RespBody α))`:
  `.error e` is a rejected promise (network failure or non-2xx status, with
  `e.message` modelling `error?.response?.data?.message`), `.ok none` is a resolved
  response whose `res.data` is falsy (empty body), `.ok (some b)` a resolved
  response with body `b`.
* Each page handler becomes a pure function from its state and the outcomes of the
  requests it awaits to a `Run`: the final state, a chronological trace of
  observable effects (requests, toasts, banner notifications, busy-flag writes,
  redirects), and an `uncaught` flag that records whether an exception escaped the
  handler (the translation of a handler whose body is wrapped in try/catch always
  yields `uncaught = false`).
* `URL.createObjectURL` returns fresh identifiers drawn from a counter.
-/

namespace Upleex

/-- JavaScript truthiness for an optional string: `null`/`undefined`/`""` are falsy. -/
def truthy : Option String → Bool
  | some s => s ≠ ""
  | none => false

/-- JavaScript `a || b` on two optional strings. -/
def jsOr (a b : Option String) : Option String :=
  if truthy a then a else b

/-- JavaScript `a || d` with a (truthy) default string `d`. -/
def jsOrD (a : Option String) (d : String) : String :=
  match a with
  | some s => if s = "" then d else s
  | none => d

/-! ### Endpoint table (src/utils/endPointApi.tsx) -/

structure EndPointApi where
  adminLogin : String
  adminRegister : String
  getVendorList : String
  updateVendorStatus : String
  getDropdowns : String
  getCategoryList : String
  postCategoryList : String
  updateCategory : String
  deleteCategory : String
  getSubCategoryList : String
  createSubCategory : String
  updateSubCategory : String
  deleteSubCategory : String
  createBlog : String
  getAllBlogs : String
  getBlogById : String
  updateBlog : String
  deleteBlog : String
  createFAQ : String
  getAllFAQs : String
  getFAQById : String
  updateFAQ : String
  deleteFAQ : String
  deriving Repr

def endPointApi : EndPointApi where
  adminLogin := "admin/login"
  adminRegister := "admin/register"
  getVendorList := "vendor-kyc"
  updateVendorStatus := "change-status"
  getDropdowns := "dropdowns"
  getCategoryList := "categories/getall"
  postCategoryList := "categories/create-category"
  updateCategory := "categories/update"
  deleteCategory := "categories/delete"
  getSubCategoryList := "subcategories/getall"
  createSubCategory := "subcategories/create-subcategory"
  updateSubCategory := "subcategories/update"
  deleteSubCategory := "subcategories/delete"
  createBlog := "blogs/create-blogs"
  getAllBlogs := "blogs/getall"
  getBlogById := "blogs/getById"
  updateBlog := "blogs/update"
  deleteBlog := "blogs/delete"
  createFAQ := "faqs/create-faq"
  getAllFAQs := "faqs/getall"
  getFAQById := "faqs/getById"
  updateFAQ := "faqs/update"
  deleteFAQ := "faqs/delete"

/-! ### Observable effects emitted by handlers -/

inductive Effect where
  | apiGet (endpoint : String) (search : Option String)
  | apiPost (endpoint : String)
  | apiPut (endpoint : String)
  | apiDelete (endpoint : String)
  | toastSuccess (msg : String)
  | toastError (msg : String)
  /-- The sub-category page's inline banner (`setNotification`), auto-hidden after 3 s. -/
  | notifyBanner (isError : Bool) (msg : String)
  /-- A write to one of the busy flags (`setIsLoading` etc.); `busy = true` while a request is in flight. -/
  | setFlag (flag : String) (busy : Bool)
  | storeToken (token : String)
  | redirect (path : String)
  deriving DecidableEq, Repr

def Effect.isRequest : Effect → Bool
  | .apiGet _ _ | .apiPost _ | .apiPut _ | .apiDelete _ => true
  | _ => false

def Effect.isUserNotification : Effect → Bool
  | .toastSuccess _ | .toastError _ | .notifyBanner _ _ => true
  | _ => false

def Effect.isSetFlag : Effect → Bool
  | .setFlag _ _ => true
  | _ => false

/-! ### Axios response model -/

/-- The JSON body of a resolved response (`res.data`): the repeated backend shape
`{ success, status, data, message }`; absent fields are `none` / defaults. -/
structure RespBody (α : Type) where
  success : Bool := false
  status : Nat := 0
  data : Option (List α) := none
  message : Option String := none
  deriving Repr

/-- A rejected axios promise; `message` models `error?.response?.data?.message`. -/
structure ApiError where
  message : Option String := none
  deriving Repr

/-- Outcome of one awaited axios call (see module comment). -/
abbrev Outcome (α : Type) := Except ApiError (Option (RespBody α))

/-- Result of running a handler: final component state, effect trace, and whether
an exception escaped the handler. -/
structure Run (σ : Type) where
  state : σ
  trace : List Effect
  uncaught : Bool := false

def requestsOf (tr : List Effect) : List Effect :=
  tr.filter Effect.isRequest

def notificationsOf (tr : List Effect) : List Effect :=
  tr.filter Effect.isUserNotification

/-- The `search` query parameter actually attached by `fetchCategories`/`fetchBlogs`:
`if (search) params.search = search`, so an empty term sends no parameter. -/
def searchParam (term : String) : Option String :=
  if term = "" then none else some term

/-- JavaScript `s.startsWith(p)`, computed on the character lists. -/
def listStartsWith : List Char → List Char → Bool
  | _, [] => true
  | [], _ :: _ => false
  | c :: cs, d :: ds => c = d && listStartsWith cs ds

/-- JavaScript `s.startsWith(p)` on strings. -/
def jsStartsWith (s p : String) : Bool :=
  listStartsWith s.data p.data

/-! ### getImageUrl helpers (C10)

`catGetImageUrl` is `getImageUrl` from src/src/app/(admin)/categories/add/page.tsx
(lines 99-109); `subGetImageUrl` is `getImageUrl` from
src/src/app/(admin)/categories/sub/add/page.tsx (lines 193-203). `env` is
`process.env.NEXT_PUBLIC_API_URL`, identical for both pages. -/

def catGetImageUrl (env imagePath : String) : String :=
  if imagePath = "" then ""
  else if jsStartsWith imagePath "http" then imagePath
  else if jsStartsWith imagePath "/uploads" then env ++ imagePath
  else imagePath

def subGetImageUrl (env imagePath : String) : String :=
  if imagePath = "" then "/placeholder-image.jpg"
  else if jsStartsWith imagePath "http" then imagePath
  else if jsStartsWith imagePath "/uploads" then env ++ imagePath
  else "/placeholder-image.jpg"

/-! ### Shared axios instance interceptors (src/unnamed/part_000)

`localStorage` is an association list; request headers likewise. -/

abbrev Store := List (String × String)

def getItem (st : Store) (k : String) : Option String :=
  (st.find? (fun p => p.1 == k)).map (·.2)

def removeItem (st : Store) (k : String) : Store :=
  st.filter (fun p => !(p.1 == k))

def setHeader (hs : List (String × String)) (k v : String) : List (String × String) :=
  (k, v) :: hs.filter (fun p => !(p.1 == k))

def getHeader (hs : List (String × String)) (k : String) : Option String :=
  (hs.find? (fun p => p.1 == k)).map (·.2)

/-- The request interceptor: reads `auth_token` from `localStorage`; `if (token)`
(JS truthiness, so a stored empty string does not count) sets
`Authorization: Bearer <token>`; always sets the ngrok header. -/
def requestInterceptor (st : Store) (headers : List (String × String)) :
    List (String × String) :=
  let token := getItem st "auth_token"
  let hs :=
    match token with
    | some t => if t = "" then headers else setHeader headers "Authorization" ("Bearer " ++ t)
    | none => headers
  setHeader hs "ngrok-skip-browser-warning" "true"

/-- The response error interceptor applied to `localStorage` and the current
`window.location.pathname`: on a 401 away from `/login` it removes the token and
redirects to `/login` (via `window.location.replace`); otherwise it leaves both
alone. The rejected promise is propagated in every case (callers see the error). -/
def applyResponseError (st : Store) (status : Option Nat) (path : String) :
    Store × Option String :=
  if status = some 401 then
    if path ≠ "/login" then (removeItem st "auth_token", some "/login")
    else (st, none)
  else (st, none)

/-! ### Search debouncing (C6)

`useDebounce` (identical in categories/add, blog, faq, categories/sub/add pages):
on every change of `value` a timer for `delay` ms is started and the previous
pending timer is cleared; when a timer fires, `debouncedValue` becomes that value.
We model the sequence of search-box edits as a time-stamped list `(t, v)` with
strictly increasing times. An edit's timer fires exactly when no further edit
happens before `t + delay`; the last edit always fires. -/

def debounceEmits (delay : Nat) : List (Nat × String) → List (Nat × String)
  | [] => []
  | [(t, v)] => [(t, v)]
  | (t, v) :: (t', v') :: rest =>
    if t + delay ≤ t' then (t, v) :: debounceEmits delay ((t', v') :: rest)
    else debounceEmits delay ((t', v') :: rest)

/-- React re-runs the `[debouncedSearch]` effect only when the debounced value
actually changes, so consecutive equal emissions trigger a single fetch.
`prev` is the previous debounced value (initially `""`). -/
def dedupFrom (prev : String) : List String → List String
  | [] => []
  | x :: xs => if x = prev then dedupFrom prev xs else x :: dedupFrom x xs

/-- The search terms for which the pages' `[debouncedSearch]` effect issues a
fetch after the mount fetch, for a given edit sequence (the pages pass
`delay = 600`). -/
def searchFetchTerms (delay : Nat) (edits : List (Nat × String)) : List String :=
  dedupFrom "" ((debounceEmits delay edits).map (·.2))

/-! ### Image selection / preview lifecycle (C7)

Shared by the categories/add and categories/sub/add pages (the blog page has the
same `[watchImage]` effect without a dropzone). Files and object URLs are
numbered; `URL.createObjectURL` yields the next fresh URL id. `created` records
`(url, file, fromDrop)` where `fromDrop` distinguishes the URL made inside
`onDrop` from the one made by the preview effect. React runs the previous
effect's cleanup (which revokes that effect's URL) before the effect body. -/

structure PreviewState where
  selected : Option Nat := none
  preview : Option Nat := none
  effectUrl : Option Nat := none
  created : List (Nat × Nat × Bool) := []
  revoked : List Nat := []
  nextUrl : Nat := 0
  deriving Repr

inductive PreviewEvent where
  /-- `onDrop` with a non-empty `acceptedFiles` whose first file is `file`. -/
  | drop (file : Nat)
  /-- The selection is cleared (`setValue('image', '')` in `handleEdit`, or `reset()`). -/
  | clear
  deriving DecidableEq, Repr

/-- One run of the `[watchImage]` effect (cleanup of the previous run first,
then the body from lines 238-247 of categories/add/page.tsx). -/
def runPreviewEffect (s : PreviewState) : PreviewState :=
  let s1 :=
    match s.effectUrl with
    | some u => { s with revoked := u :: s.revoked, effectUrl := none }
    | none => s
  match s1.selected with
  | some f =>
    { s1 with
      preview := some s1.nextUrl
      effectUrl := some s1.nextUrl
      created := (s1.nextUrl, f, false) :: s1.created
      nextUrl := s1.nextUrl + 1 }
  | none => { s1 with preview := none }

/-- One user-visible step: the event handler runs, then the `[watchImage]`
effect re-runs (the form value changed). `onDrop` (lines 218-228) itself calls
`URL.createObjectURL` and `setPreviewImage` before the effect runs. -/
def previewStep (s : PreviewState) : PreviewEvent → PreviewState
  | .drop f =>
    let s1 :=
      { s with
        selected := some f
        preview := some s.nextUrl
        created := (s.nextUrl, f, true) :: s.created
        nextUrl := s.nextUrl + 1 }
    runPreviewEffect s1
  | .clear => runPreviewEffect { s with selected := none }

def runPreview (events : List PreviewEvent) : PreviewState :=
  events.foldl previewStep {}

/-! ### Add Category page (src/src/app/(admin)/categories/add/page.tsx) -/

structure CategoryRow where
  _id : String := ""
  categories_id : Option String := none
  categories_name : String := ""
  image : Option String := none
  deriving DecidableEq, Repr

structure CatState where
  isLoading : Bool := false
  isFetching : Bool := false
  isDeleting : Bool := false
  categories : List CategoryRow := []
  searchText : String := ""
  debouncedSearch : String := ""
  editingId : Option String := none
  previewImage : Option Nat := none
  showDeletePopup : Bool := false
  categoryToDelete : Option CategoryRow := none
  deriving Repr

/-- `fetchCategories(search?)` (lines 65-88): sets `isFetching`, GETs the category
list with `params.search = search` when truthy, stores `res.data.data` when
present (both branches of the `if/else if` collapse to that), on a rejection
toasts a fixed message; `isFetching` is cleared in `finally`. -/
def catFetchCategories (s : CatState) (search : Option String)
    (res : Outcome CategoryRow) : Run CatState :=
  let s1 := { s with isFetching := true }
  let req := Effect.apiGet endPointApi.getCategoryList
    (match search with
     | some t => searchParam t
     | none => none)
  match res with
  | .ok body =>
    let s2 :=
      match body with
      | some b =>
        match b.data with
        | some rows => { s1 with categories := rows }
        | none => s1
      | none => s1
    { state := { s2 with isFetching := false }
      trace := [.setFlag "isFetching" true, req, .setFlag "isFetching" false] }
  | .error _ =>
    { state := { s1 with isFetching := false }
      trace := [.setFlag "isFetching" true, req,
                .toastError "Failed to fetch categories", .setFlag "isFetching" false] }

structure CatFormValues where
  name : String := ""
  /-- `data.image && data.image[0]` is truthy. -/
  hasImage : Bool := false
  deriving Repr

/-- The mutation request `onSubmit` issues: PUT `updateCategory/<id>` when editing,
POST `postCategoryList` otherwise. -/
def catMutationReq (s : CatState) : Effect :=
  match s.editingId with
  | some eid => .apiPut (endPointApi.updateCategory ++ "/" ++ eid)
  | none => .apiPost endPointApi.postCategoryList

/-- `onSubmit` (lines 249-305). `mutRes` is the awaited PUT/POST outcome,
`refetchRes` the outcome of the `fetchCategories(debouncedSearch)` awaited on the
success path. The whole body is inside try/catch with `finally setIsLoading(false)`. -/
def catOnSubmit (s : CatState) (v : CatFormValues)
    (mutRes : Outcome CategoryRow) (refetchRes : Outcome CategoryRow) : Run CatState :=
  let s1 := { s with isLoading := true }
  let req := catMutationReq s1
  match mutRes with
  | .error e =>
    let msg := jsOrD e.message
      (match s1.editingId with
       | some _ => "Failed to update category"
       | none => "Failed to create category")
    { state := { s1 with isLoading := false }
      trace := [.setFlag "isLoading" true, req, .toastError msg, .setFlag "isLoading" false] }
  | .ok body =>
    match body with
    | none =>
      -- `res?.data` falsy: no toast on the update branch, no create-branch toast
      -- (`res?.data?.success`/`status` are undefined), and no refetch/reset.
      { state := { s1 with isLoading := false }
        trace := [.setFlag "isLoading" true, req, .setFlag "isLoading" false] }
    | some b =>
      let (s2, successToast) :=
        match s1.editingId with
        | some _ =>
          ({ s1 with editingId := none }, [Effect.toastSuccess "Category updated successfully"])
        | none =>
          (s1,
           if b.success || b.status = 200 then
             [Effect.toastSuccess (jsOrD b.message "Category created successfully")]
           else [])
      -- `if (res?.data) { reset(); setPreviewImage(null); await fetchCategories(debouncedSearch) }`
      let s3 := { s2 with previewImage := none }
      let fr := catFetchCategories s3 (some s3.debouncedSearch) refetchRes
      { state := { fr.state with isLoading := false }
        trace := [.setFlag "isLoading" true, req] ++ successToast ++ fr.trace
                   ++ [.setFlag "isLoading" false] }

/-- `handleConfirmDelete` (lines 323-343): guarded by `categoryToDelete`,
deletes `deleteCategory/<_id || categories_id>`, toasts, awaits
`fetchCategories(debouncedSearch)`, closes the popup; on rejection toasts the
server message or a fixed one. `isDeleting` is cleared in `finally`. -/
def catHandleConfirmDelete (s : CatState)
    (delRes : Outcome CategoryRow) (refetchRes : Outcome CategoryRow) : Run CatState :=
  match s.categoryToDelete with
  | none => { state := s, trace := [] }
  | some c =>
    let s1 := { s with isDeleting := true }
    let id := if c._id = "" then (jsOr c.categories_id none).getD "undefined" else c._id
    let req := Effect.apiDelete (endPointApi.deleteCategory ++ "/" ++ id)
    match delRes with
    | .ok _ =>
      let fr := catFetchCategories s1 (some s1.debouncedSearch) refetchRes
      let s2 := { fr.state with showDeletePopup := false, categoryToDelete := none }
      { state := { s2 with isDeleting := false }
        trace := [.setFlag "isDeleting" true, req,
                  .toastSuccess "Category deleted successfully"] ++ fr.trace
                   ++ [.setFlag "isDeleting" false] }
    | .error e =>
      { state := { s1 with isDeleting := false }
        trace := [.setFlag "isDeleting" true, req,
                  .toastError (jsOrD e.message "Failed to delete category"),
                  .setFlag "isDeleting" false] }

/-! ### Blog page (src/src/app/(admin)/blog/page.tsx, first document) -/

structure BlogRow where
  id : String := ""
  title : String := ""
  image : String := ""
  description : String := ""
  blog_date : String := ""
  deriving DecidableEq, Repr

structure BlogState where
  isLoading : Bool := false
  isFetching : Bool := false
  blogs : List BlogRow := []
  filteredBlogs : List BlogRow := []
  searchText : String := ""
  debouncedSearch : String := ""
  editingId : Option String := none
  previewImage : Option Nat := none
  deriving Repr

/-- `fetchBlogs(search?)` (lines 98-120): GETs the blog list with the search
param when truthy; when `res.data.data` is present it is stored into both
`blogs` and `filteredBlogs`; a rejection toasts a fixed message. -/
def fetchBlogs (s : BlogState) (search : Option String)
    (res : Outcome BlogRow) : Run BlogState :=
  let s1 := { s with isFetching := true }
  let req := Effect.apiGet endPointApi.getAllBlogs
    (match search with
     | some t => searchParam t
     | none => none)
  match res with
  | .ok body =>
    let s2 :=
      match body with
      | some b =>
        match b.data with
        | some rows => { s1 with blogs := rows, filteredBlogs := rows }
        | none => s1
      | none => s1
    { state := { s2 with isFetching := false }
      trace := [.setFlag "isFetching" true, req, .setFlag "isFetching" false] }
  | .error _ =>
    { state := { s1 with isFetching := false }
      trace := [.setFlag "isFetching" true, req,
                .toastError "Failed to fetch blogs", .setFlag "isFetching" false] }

/-- `createBlog` (lines 135-153): returns `true` exactly when the resolved
response has a truthy `res.data`; its own try/catch toasts and returns `false`
on rejection. -/
def createBlog (res : Outcome BlogRow) : Bool × List Effect :=
  match res with
  | .ok (some _) =>
    (true, [.apiPost endPointApi.createBlog, .toastSuccess "Blog created successfully"])
  | .ok none => (false, [.apiPost endPointApi.createBlog])
  | .error e =>
    (false, [.apiPost endPointApi.createBlog,
             .toastError (jsOrD e.message "Failed to create blog")])

/-- `updateBlog` (lines 156-178). -/
def updateBlog (id : String) (res : Outcome BlogRow) : Bool × List Effect :=
  let req := Effect.apiPut (endPointApi.updateBlog ++ "/" ++ id)
  match res with
  | .ok (some _) => (true, [req, .toastSuccess "Blog updated successfully"])
  | .ok none => (false, [req])
  | .error e => (false, [req, .toastError (jsOrD e.message "Failed to update blog")])

/-- `deleteBlog` (lines 181-195). -/
def deleteBlog (id : String) (res : Outcome BlogRow) : Bool × List Effect :=
  let req := Effect.apiDelete (endPointApi.deleteBlog ++ "/" ++ id)
  match res with
  | .ok (some _) => (true, [req, .toastSuccess "Blog deleted successfully"])
  | .ok none => (false, [req])
  | .error e => (false, [req, .toastError (jsOrD e.message "Failed to delete blog")])

/-- Blog `onSubmit` (lines 197-231): builds the FormData, calls `updateBlog`
when `editingId` is set and `createBlog` otherwise; on success resets the form,
clears the preview and `editingId`, and awaits `fetchBlogs(debouncedSearch)`. -/
def blogOnSubmit (s : BlogState) (mutRes : Outcome BlogRow)
    (refetchRes : Outcome BlogRow) : Run BlogState :=
  let s1 := { s with isLoading := true }
  let (success, mutEff) :=
    match s1.editingId with
    | some eid => updateBlog eid mutRes
    | none => createBlog mutRes
  if success then
    let s2 := { s1 with previewImage := none, editingId := none }
    let fr := fetchBlogs s2 (some s2.debouncedSearch) refetchRes
    { state := { fr.state with isLoading := false }
      trace := [.setFlag "isLoading" true] ++ mutEff ++ fr.trace
                 ++ [.setFlag "isLoading" false] }
  else
    { state := { s1 with isLoading := false }
      trace := [.setFlag "isLoading" true] ++ mutEff ++ [.setFlag "isLoading" false] }

/-- Blog `handleDelete` (lines 264-271): gated by `confirm(...)`; on a successful
`deleteBlog` awaits `fetchBlogs(debouncedSearch)`. No busy flag is touched here. -/
def blogHandleDelete (s : BlogState) (id : String) (confirmed : Bool)
    (delRes : Outcome BlogRow) (refetchRes : Outcome BlogRow) : Run BlogState :=
  if confirmed then
    let (success, delEff) := deleteBlog id delRes
    if success then
      let fr := fetchBlogs s (some s.debouncedSearch) refetchRes
      { state := fr.state, trace := delEff ++ fr.trace }
    else { state := s, trace := delEff }
  else { state := s, trace := [] }

/-! ### FAQ page (src/unnamed/part_003) -/

structure FaqRaw where
  _id : Option String := none
  id : Option String := none
  question : String := ""
  answer : String := ""
  createdAt : Option String := none
  deriving DecidableEq, Repr

structure FAQRow where
  id : Option String := none
  question : String := ""
  answer : String := ""
  status : String := "Active"
  createdAt : Option String := none
  deriving DecidableEq, Repr

/-- The row formatting in `fetchFAQs`/`searchFAQs`: `id: faq._id || faq.id`,
`status: "Active"`. -/
def formatFaq (r : FaqRaw) : FAQRow :=
  { id := jsOr r._id r.id
    question := r.question
    answer := r.answer
    status := "Active"
    createdAt := r.createdAt }

structure FaqState where
  isLoading : Bool := false
  isFetching : Bool := false
  faqs : List FAQRow := []
  filteredFaqs : List FAQRow := []
  searchText : String := ""
  debouncedSearch : String := ""
  editingId : Option String := none
  deriving Repr

/-- `fetchFAQs` (lines 81-104): GET with no search parameter; when
`res.data?.data` is present both `faqs` and `filteredFaqs` receive the formatted
rows; a rejection toasts a fixed message. -/
def fetchFAQs (s : FaqState) (res : Outcome FaqRaw) : Run FaqState :=
  let s1 := { s with isFetching := true }
  let req := Effect.apiGet endPointApi.getAllFAQs none
  match res with
  | .ok body =>
    let s2 :=
      match body with
      | some b =>
        match b.data with
        | some raws =>
          { s1 with faqs := raws.map formatFaq, filteredFaqs := raws.map formatFaq }
        | none => s1
      | none => s1
    { state := { s2 with isFetching := false }
      trace := [.setFlag "isFetching" true, req, .setFlag "isFetching" false] }
  | .error _ =>
    { state := { s1 with isFetching := false }
      trace := [.setFlag "isFetching" true, req,
                .toastError "Failed to fetch FAQs", .setFlag "isFetching" false] }

/-- `searchFAQs(searchTerm)` (lines 107-131): GET `getAllFAQs?search=<term>`;
only `filteredFaqs` receives the formatted rows. -/
def searchFAQs (s : FaqState) (term : String) (res : Outcome FaqRaw) : Run FaqState :=
  let s1 := { s with isFetching := true }
  let req := Effect.apiGet endPointApi.getAllFAQs (some term)
  match res with
  | .ok body =>
    let s2 :=
      match body with
      | some b =>
        match b.data with
        | some raws => { s1 with filteredFaqs := raws.map formatFaq }
        | none => s1
      | none => s1
    { state := { s2 with isFetching := false }
      trace := [.setFlag "isFetching" true, req, .setFlag "isFetching" false] }
  | .error _ =>
    { state := { s1 with isFetching := false }
      trace := [.setFlag "isFetching" true, req,
                .toastError "Failed to search FAQs", .setFlag "isFetching" false] }

/-- `createFAQ` (lines 134-148). -/
def createFAQ (res : Outcome FaqRaw) : Bool × List Effect :=
  match res with
  | .ok (some _) =>
    (true, [.apiPost endPointApi.createFAQ, .toastSuccess "FAQ created successfully"])
  | .ok none => (false, [.apiPost endPointApi.createFAQ])
  | .error e =>
    (false, [.apiPost endPointApi.createFAQ,
             .toastError (jsOrD e.message "Failed to create FAQ")])

/-- `updateFAQ` (lines 151-168). -/
def updateFAQ (id : String) (res : Outcome FaqRaw) : Bool × List Effect :=
  let req := Effect.apiPut (endPointApi.updateFAQ ++ "/" ++ id)
  match res with
  | .ok (some _) => (true, [req, .toastSuccess "FAQ updated successfully"])
  | .ok none => (false, [req])
  | .error e => (false, [req, .toastError (jsOrD e.message "Failed to update FAQ")])

/-- `deleteFAQ` (lines 171-185). -/
def deleteFAQ (id : String) (res : Outcome FaqRaw) : Bool × List Effect :=
  let req := Effect.apiDelete (endPointApi.deleteFAQ ++ "/" ++ id)
  match res with
  | .ok (some _) => (true, [req, .toastSuccess "FAQ deleted successfully"])
  | .ok none => (false, [req])
  | .error e => (false, [req, .toastError (jsOrD e.message "Failed to delete FAQ")])

/-- The refresh both FAQ mutation paths run on success:
`if (searchText) await searchFAQs(searchText) else await fetchFAQs()`. -/
def faqRefresh (s : FaqState) (res : Outcome FaqRaw) : Run FaqState :=
  if s.searchText = "" then fetchFAQs s res else searchFAQs s s.searchText res

/-- FAQ `onSubmit` (lines 187-216). -/
def faqOnSubmit (s : FaqState) (mutRes : Outcome FaqRaw)
    (refetchRes : Outcome FaqRaw) : Run FaqState :=
  let s1 := { s with isLoading := true }
  let (success, mutEff) :=
    match s1.editingId with
    | some eid => updateFAQ eid mutRes
    | none => createFAQ mutRes
  if success then
    let s2 := { s1 with editingId := none }
    let fr := faqRefresh s2 refetchRes
    { state := { fr.state with isLoading := false }
      trace := [.setFlag "isLoading" true] ++ mutEff ++ fr.trace
                 ++ [.setFlag "isLoading" false] }
  else
    { state := { s1 with isLoading := false }
      trace := [.setFlag "isLoading" true] ++ mutEff ++ [.setFlag "isLoading" false] }

/-- FAQ `handleDelete` (lines 226-238): gated by `confirm(...)`; on success
refreshes via `searchFAQs(searchText)` or `fetchFAQs()`. No busy flag is
touched in this handler. -/
def faqHandleDelete (s : FaqState) (id : String) (confirmed : Bool)
    (delRes : Outcome FaqRaw) (refetchRes : Outcome FaqRaw) : Run FaqState :=
  if confirmed then
    let (success, delEff) := deleteFAQ id delRes
    if success then
      let fr := faqRefresh s refetchRes
      { state := fr.state, trace := delEff ++ fr.trace }
    else { state := s, trace := delEff }
  else { state := s, trace := [] }

/-! ### Vendors page (src/src/app/(admin)/vendors/page.tsx) -/

structure VendorRow where
  _id : String := ""
  vendor_id : String := ""
  full_name : String := ""
  email : String := ""
  mobile : String := ""
  business_name : String := ""
  status : String := "pending"
  deriving DecidableEq, Repr

structure VendorsState where
  rowData : List VendorRow := []
  isLoading : Bool := true
  isUpdating : Option String := none
  dropdownStatuses : List String := []
  deriving Repr

/-- `fetchVendors` (lines 30-43): on `response.data.status === 200 ||
response.data.success` stores `response.data.data || []`; a rejection toasts a
fixed message; `isLoading` cleared in `finally`. -/
def fetchVendors (s : VendorsState) (res : Outcome VendorRow) : Run VendorsState :=
  let s1 := { s with isLoading := true }
  let req := Effect.apiGet endPointApi.getVendorList none
  match res with
  | .ok body =>
    let s2 :=
      match body with
      | some b => if b.status = 200 || b.success then { s1 with rowData := b.data.getD [] } else s1
      | none => s1
    { state := { s2 with isLoading := false }
      trace := [.setFlag "isLoading" true, req, .setFlag "isLoading" false] }
  | .error _ =>
    { state := { s1 with isLoading := false }
      trace := [.setFlag "isLoading" true, req,
                .toastError "Failed to fetch vendor list", .setFlag "isLoading" false] }

/-- The `dropdowns` response body: `response.data.getquote_status`. -/
structure DropBody where
  getquote_status : Option (List String) := none
  deriving Repr

/-- `fetchDropdowns` (lines 45-54): stores `getquote_status` when present. Its
catch block only logs to the console: a failed request is swallowed with no
user-visible notification of any kind. -/
def fetchDropdowns (s : VendorsState) (res : Except ApiError (Option DropBody)) :
    Run VendorsState :=
  let req := Effect.apiGet endPointApi.getDropdowns none
  match res with
  | .ok body =>
    let s2 :=
      match body with
      | some b =>
        match b.getquote_status with
        | some l => { s with dropdownStatuses := l }
        | none => s
      | none => s
    { state := s2, trace := [req] }
  | .error _ => { state := s, trace := [req] }

/-- `handleStatusChange` (lines 61-83): POSTs the status change; on a body with
`status === 200 || success` toasts and starts `fetchVendors()` (not awaited, but
run to completion in this sequential model); otherwise toasts
`response.data.message || "Failed to update status"`; on rejection toasts
`error.response?.data?.message || "Failed to update vendor status"`.
`isUpdating` is reset to `null` in `finally`. -/
def handleStatusChange (s : VendorsState) (kycId vendorId newStatus : String)
    (res : Outcome VendorRow) (refetchRes : Outcome VendorRow) : Run VendorsState :=
  let s1 := { s with isUpdating := some kycId }
  let req := Effect.apiPost endPointApi.updateVendorStatus
  match res with
  | .ok body =>
    match body with
    | some b =>
      if b.status = 200 || b.success then
        let fr := fetchVendors s1 refetchRes
        { state := { fr.state with isUpdating := none }
          trace := [.setFlag "isUpdating" true, req,
                    .toastSuccess ("Vendor status updated to " ++ newStatus)] ++ fr.trace
                     ++ [.setFlag "isUpdating" false] }
      else
        { state := { s1 with isUpdating := none }
          trace := [.setFlag "isUpdating" true, req,
                    .toastError (jsOrD b.message "Failed to update status"),
                    .setFlag "isUpdating" false] }
    | none =>
      -- `response.data` falsy: both guards are undefined, the else branch toasts
      -- the fallback message.
      { state := { s1 with isUpdating := none }
        trace := [.setFlag "isUpdating" true, req,
                  .toastError "Failed to update status", .setFlag "isUpdating" false] }
  | .error e =>
    { state := { s1 with isUpdating := none }
      trace := [.setFlag "isUpdating" true, req,
                .toastError (jsOrD e.message "Failed to update vendor status"),
                .setFlag "isUpdating" false] }

/-! ### Add Sub Category page (src/src/app/(admin)/categories/sub/add/page.tsx) -/

structure SubCategoryEntry where
  subcategory_id : String := ""
  subcategory_name : String := ""
  image : Option String := none
  deriving DecidableEq, Repr

structure ParentCategory where
  categories_id : String := ""
  categories_name : String := ""
  subcategories : Option (List SubCategoryEntry) := none
  deriving DecidableEq, Repr

structure SubCategoryRow where
  id : String := ""
  name : String := ""
  parent : String := ""
  parentId : String := ""
  image : String := ""
  status : String := "Active"
  deriving DecidableEq, Repr

/-- The flattening in the sub page's `fetchCategories` (lines 156-181): every
subcategory of every fetched category becomes a row whose id is the
server-assigned `subcategory_id`. -/
def flattenSubCats (cats : List ParentCategory) : List SubCategoryRow :=
  cats.flatMap fun c =>
    match c.subcategories with
    | some subs =>
      subs.map fun sub =>
        { id := sub.subcategory_id
          name := sub.subcategory_name
          parent := c.categories_name
          parentId := c.categories_id
          image := sub.image.getD ""
          status := "Active" }
    | none => []

structure SubState where
  isLoading : Bool := false
  isFetching : Bool := false
  isDeleting : Bool := false
  categories : List ParentCategory := []
  subCategories : List SubCategoryRow := []
  searchText : String := ""
  debouncedSearch : String := ""
  editingSubCategory : Option SubCategoryRow := none
  subCategoryToDelete : Option SubCategoryRow := none
  showDeletePopup : Bool := false
  previewImage : Option Nat := none
  /-- `notification` banner state: `(isError, message)`. -/
  notification : Option (Bool × String) := none
  deriving Repr

/-- The sub page's `fetchCategories` (lines 156-192): GETs the category list
(no search parameter), stores the categories and the flattened subcategory rows;
a rejection sets the error banner (not a toast). -/
def subFetchCategories (s : SubState) (res : Outcome ParentCategory) : Run SubState :=
  let s1 := { s with isFetching := true }
  let req := Effect.apiGet endPointApi.getCategoryList none
  match res with
  | .ok body =>
    let s2 :=
      match body with
      | some b =>
        match b.data with
        | some rows => { s1 with categories := rows, subCategories := flattenSubCats rows }
        | none => s1
      | none => s1
    { state := { s2 with isFetching := false }
      trace := [.setFlag "isFetching" true, req, .setFlag "isFetching" false] }
  | .error _ =>
    { state := { s1 with isFetching := false, notification := some (true, "Failed to fetch categories") }
      trace := [.setFlag "isFetching" true, req,
                .notifyBanner true "Failed to fetch categories", .setFlag "isFetching" false] }

/-- Sub page `onSubmit` (create, lines 205-252): POSTs the new subcategory; on a
truthy `res.data` sets the success banner and starts `fetchCategories()`
(not awaited), resets the form and preview. -/
def subOnSubmit (s : SubState) (mutRes : Outcome ParentCategory)
    (refetchRes : Outcome ParentCategory) : Run SubState :=
  let s1 := { s with isLoading := true }
  let req := Effect.apiPost endPointApi.createSubCategory
  match mutRes with
  | .ok (some _) =>
    let s2 := { s1 with notification := some (false, "Sub-category created successfully") }
    let fr := subFetchCategories s2 refetchRes
    let s3 := { fr.state with previewImage := none }
    { state := { s3 with isLoading := false }
      trace := [.setFlag "isLoading" true, req,
                .notifyBanner false "Sub-category created successfully"] ++ fr.trace
                 ++ [.setFlag "isLoading" false] }
  | .ok none =>
    { state := { s1 with isLoading := false }
      trace := [.setFlag "isLoading" true, req, .setFlag "isLoading" false] }
  | .error e =>
    let msg := jsOrD e.message "Failed to create sub-category"
    { state := { s1 with isLoading := false, notification := some (true, msg) }
      trace := [.setFlag "isLoading" true, req, .notifyBanner true msg,
                .setFlag "isLoading" false] }

/-- Sub page `handleUpdate` (lines 256-302): PUTs
`updateSubCategory/<editingSubCategory.id>`; on a truthy `res.data` sets the
success banner, starts `fetchCategories()`, and clears the editing state. -/
def subHandleUpdate (s : SubState) (mutRes : Outcome ParentCategory)
    (refetchRes : Outcome ParentCategory) : Run SubState :=
  match s.editingSubCategory with
  | none => { state := s, trace := [] }
  | some editing =>
    let s1 := { s with isLoading := true }
    let req := Effect.apiPut (endPointApi.updateSubCategory ++ "/" ++ editing.id)
    match mutRes with
    | .ok (some _) =>
      let s2 := { s1 with notification := some (false, "Sub-category updated successfully") }
      let fr := subFetchCategories s2 refetchRes
      let s3 := { fr.state with editingSubCategory := none, previewImage := none }
      { state := { s3 with isLoading := false }
        trace := [.setFlag "isLoading" true, req,
                  .notifyBanner false "Sub-category updated successfully"] ++ fr.trace
                   ++ [.setFlag "isLoading" false] }
    | .ok none =>
      { state := { s1 with isLoading := false }
        trace := [.setFlag "isLoading" true, req, .setFlag "isLoading" false] }
    | .error e =>
      let msg := jsOrD e.message "Failed to update sub-category"
      { state := { s1 with isLoading := false, notification := some (true, msg) }
        trace := [.setFlag "isLoading" true, req, .notifyBanner true msg,
                  .setFlag "isLoading" false] }

/-- `onSubmitForm` (lines 422-428): dispatches to `handleUpdate` when editing,
`onSubmit` otherwise. -/
def subOnSubmitForm (s : SubState) (mutRes : Outcome ParentCategory)
    (refetchRes : Outcome ParentCategory) : Run SubState :=
  match s.editingSubCategory with
  | some _ => subHandleUpdate s mutRes refetchRes
  | none => subOnSubmit s mutRes refetchRes

/-! ### Login and register pages (src/src/app/login/page.tsx,
src/src/app/register/page.tsx) -/

structure AuthState where
  isLoading : Bool := false
  deriving Repr

/-- `response.data` for the admin-login endpoint; `dataToken` is
`response.data.data?.token`. -/
structure LoginBody where
  success : Bool := false
  message : Option String := none
  token : Option String := none
  dataToken : Option String := none
  deriving Repr

/-- Login `onSubmit` (lines 39-63): on `response.data.success || response.status
=== 200` reads `response.data.token || response.data.data?.token`; a truthy
token is saved and the user is redirected to `/dashboard`; otherwise an error
toast. The outcome carries the HTTP status alongside the (possibly falsy) body. -/
def loginOnSubmit (s : AuthState) (res : Except ApiError (Nat × Option LoginBody)) :
    Run AuthState :=
  let s1 := { s with isLoading := true }
  let req := Effect.apiPost endPointApi.adminLogin
  match res with
  | .ok (status, body) =>
    let bSuccess := match body with | some b => b.success | none => false
    if bSuccess || status = 200 then
      let token := match body with | some b => jsOr b.token b.dataToken | none => none
      if truthy token then
        { state := { s1 with isLoading := false }
          trace := [.setFlag "isLoading" true, req, .storeToken (token.getD ""),
                    .toastSuccess "Login successful! Welcome back.",
                    .redirect "/dashboard", .setFlag "isLoading" false] }
      else
        { state := { s1 with isLoading := false }
          trace := [.setFlag "isLoading" true, req,
                    .toastError "Authentication failed: No token received",
                    .setFlag "isLoading" false] }
    else
      let msg := match body with | some b => jsOrD b.message "Login failed" | none => "Login failed"
      { state := { s1 with isLoading := false }
        trace := [.setFlag "isLoading" true, req, .toastError msg, .setFlag "isLoading" false] }
  | .error e =>
    { state := { s1 with isLoading := false }
      trace := [.setFlag "isLoading" true, req,
                .toastError (jsOrD e.message "Something went wrong. Please try again."),
                .setFlag "isLoading" false] }

/-- Register `onSubmit` (register page lines 39-56): on `response.data.success ||
response.status === 200 || response.status === 201` toasts and redirects to
`/login`; otherwise toasts `response.data.message || "Registration failed"`. -/
def registerOnSubmit (s : AuthState) (res : Except ApiError (Nat × Option LoginBody)) :
    Run AuthState :=
  let s1 := { s with isLoading := true }
  let req := Effect.apiPost endPointApi.adminRegister
  match res with
  | .ok (status, body) =>
    let bSuccess := match body with | some b => b.success | none => false
    if bSuccess || status = 200 || status = 201 then
      { state := { s1 with isLoading := false }
        trace := [.setFlag "isLoading" true, req,
                  .toastSuccess "Account created successfully! Please login.",
                  .redirect "/login", .setFlag "isLoading" false] }
    else
      let msg := match body with
        | some b => jsOrD b.message "Registration failed"
        | none => "Registration failed"
      { state := { s1 with isLoading := false }
        trace := [.setFlag "isLoading" true, req, .toastError msg, .setFlag "isLoading" false] }
  | .error e =>
    { state := { s1 with isLoading := false }
      trace := [.setFlag "isLoading" true, req,
                .toastError (jsOrD e.message "Something went wrong. Please try again."),
                .setFlag "isLoading" false] }

/-! ### Legacy Add Category page variant (src/unnamed/part_001)

This page never talks to the backend: it seeds a hardcoded list and its
`onSubmit` (lines 88-102) fabricates the new row's id as
`categories.length + 1` after a 1-second `setTimeout`. -/

structure P001Category where
  id : Nat := 0
  name : String := ""
  image : String := ""
  description : Option String := none
  count : Nat := 0
  status : String := "Active"
  deriving DecidableEq, Repr

def p001InitialCategories : List P001Category :=
  [{ id := 1, name := "Electronics",
     image := "https://images.unsplash.com/photo-1498049794561-7780e7231661?w=100&h=100&fit=crop",
     count := 124, status := "Active" },
   { id := 2, name := "Fashion",
     image := "https://images.unsplash.com/photo-1445205170230-053b830c6050?w=100&h=100&fit=crop",
     count := 85, status := "Active" },
   { id := 3, name := "Home & Garden",
     image := "https://images.unsplash.com/photo-1484154218962-a197022b5858?w=100&h=100&fit=crop",
     count := 62, status := "Inactive" },
   { id := 4, name := "Books",
     image := "https://images.unsplash.com/photo-1495446815901-a7297e633e8d?w=100&h=100&fit=crop",
     count := 45, status := "Active" }]

structure P001State where
  isLoading : Bool := false
  categories : List P001Category := p001InitialCategories
  deriving Repr

/-- part_001 `onSubmit`: no API call at all; the new category is prepended with
the locally computed id `categories.length + 1`. -/
def p001OnSubmit (s : P001State) (name descr : String) : Run P001State :=
  let s1 := { s with isLoading := true }
  let newCategory : P001Category :=
    { id := s1.categories.length + 1
      name := name
      image := "https://images.unsplash.com/photo-1523275335684-37898b6baf30?w=100&h=100&fit=crop"
      description := some descr
      count := 0
      status := "Active" }
  { state := { s1 with isLoading := false, categories := newCategory :: s1.categories }
    trace := [.setFlag "isLoading" true, .setFlag "isLoading" false] }

/-! ### Form validation (zod schemas) and the react-hook-form submit gate (C2)

Each `z.object` schema becomes a function from the form's text fields to the
list of field errors; `z.string().min(n, msg)` fails with `msg` when the string
has fewer than `n` characters. The `z.string().email(msg)` checks on the auth
pages are library regexes; their verdict enters as the boolean `emailValid`. -/

structure FieldError where
  field : String
  message : String
  deriving DecidableEq, Repr

/-- `categorySchema` (categories/add lines 21-24); `image` is `z.any().optional()`. -/
def categoryValidate (name : String) : List FieldError :=
  if name.length < 2 then [⟨"name", "Category name must be at least 2 characters"⟩] else []

/-- `subCategorySchema` (categories/sub/add lines 22-26). -/
def subCategoryValidate (categoryId name : String) : List FieldError :=
  (if categoryId.length < 1 then [⟨"categoryId", "Please select a parent category"⟩] else []) ++
    (if name.length < 2 then [⟨"name", "Sub-category name must be at least 2 characters"⟩] else [])

/-- `blogSchema` (blog page lines 19-25). -/
def blogValidate (title sortDescription longDescription date : String) : List FieldError :=
  (if title.length < 5 then [⟨"title", "Title must be at least 5 characters"⟩] else []) ++
    (if sortDescription.length < 10 then
      [⟨"sort_description", "Short description must be at least 10 characters"⟩] else []) ++
    (if longDescription.length < 20 then
      [⟨"long_description", "Long description must be at least 20 characters"⟩] else []) ++
    (if date.length < 1 then [⟨"date", "Please select a date"⟩] else [])

/-- `faqSchema` (part_003 lines 20-23). -/
def faqValidate (question answer : String) : List FieldError :=
  (if question.length < 10 then [⟨"question", "Question must be at least 10 characters"⟩] else []) ++
    (if answer.length < 20 then [⟨"answer", "Answer must be at least 20 characters"⟩] else [])

/-- `loginSchema` (login page lines 20-23). -/
def loginValidate (emailValid : Bool) (password : String) : List FieldError :=
  (if !emailValid then [⟨"email", "Invalid email address"⟩] else []) ++
    (if password.length < 6 then [⟨"password", "Password must be at least 6 characters"⟩] else [])

/-- `registerSchema` (register page lines 18-22). -/
def registerValidate (name : String) (emailValid : Bool) (phone password : String) :
    List FieldError :=
  (if name.length < 2 then [⟨"name", "Name must be at least 2 characters"⟩] else []) ++
    (if !emailValid then [⟨"email", "Invalid email address"⟩] else []) ++
    (if phone.length < 10 then [⟨"phone", "Phone number must be at least 10 digits"⟩] else []) ++
    (if password.length < 6 then [⟨"password", "Password must be at least 6 characters"⟩] else [])

/-- react-hook-form's `handleSubmit` with `zodResolver(schema)`: the wrapped
submit handler runs only when the resolver produces no field errors; otherwise
the handler is not invoked (state untouched, no effects) and the errors are
exposed through `formState.errors`. -/
def handleSubmitGate {σ : Type} (errors : List FieldError) (s : σ) (run : Run σ) :
    Run σ × List FieldError :=
  if errors.isEmpty then (run, []) else ({ state := s, trace := [] }, errors)

/-- The category form submission end to end: validation, then `onSubmit`. -/
def categorySubmitFlow (s : CatState) (v : CatFormValues)
    (mutRes refetchRes : Outcome CategoryRow) : Run CatState × List FieldError :=
  handleSubmitGate (categoryValidate v.name) s (catOnSubmit s v mutRes refetchRes)

/-- The sub-category form submission end to end. -/
def subSubmitFlow (s : SubState) (categoryId name : String)
    (mutRes refetchRes : Outcome ParentCategory) : Run SubState × List FieldError :=
  handleSubmitGate (subCategoryValidate categoryId name) s (subOnSubmitForm s mutRes refetchRes)

/-- The blog form submission end to end. -/
def blogSubmitFlow (s : BlogState) (title sortDescription longDescription date : String)
    (mutRes refetchRes : Outcome BlogRow) : Run BlogState × List FieldError :=
  handleSubmitGate (blogValidate title sortDescription longDescription date) s
    (blogOnSubmit s mutRes refetchRes)

/-- The FAQ form submission end to end. -/
def faqSubmitFlow (s : FaqState) (question answer : String)
    (mutRes refetchRes : Outcome FaqRaw) : Run FaqState × List FieldError :=
  handleSubmitGate (faqValidate question answer) s (faqOnSubmit s mutRes refetchRes)

/-- The login form submission end to end. -/
def loginSubmitFlow (s : AuthState) (emailValid : Bool) (password : String)
    (res : Except ApiError (Nat × Option LoginBody)) : Run AuthState × List FieldError :=
  handleSubmitGate (loginValidate emailValid password) s (loginOnSubmit s res)

/-- The register form submission end to end. -/
def registerSubmitFlow (s : AuthState) (name : String) (emailValid : Bool)
    (phone password : String) (res : Except ApiError (Nat × Option LoginBody)) :
    Run AuthState × List FieldError :=
  handleSubmitGate (registerValidate name emailValid phone password) s (registerOnSubmit s res)

/-! ### Routed FAQ page (src/src/app/(admin)/faq/page.tsx)

Unlike the API-driven FAQ variant in src/unnamed/part_003, the page staged at
the `/faq` route is a static demo: it seeds `initialFaqs` with hardcoded ids
1-3 and its `onSubmit` (lines 101-113) talks to no backend — after a 1-second
`setTimeout` it fabricates the new row's id as `faqs.length + 1` and prepends
the row. -/

structure RoutedFaqRow where
  id : Nat := 0
  question : String := ""
  answer : String := ""
  status : String := "Active"
  deriving DecidableEq, Repr

def routedFaqInitialFaqs : List RoutedFaqRow :=
  [{ id := 1, question := "How to reset password?",
     answer := "Go to settings page and click reset password.", status := "Active" },
   { id := 2, question := "Where is my order?",
     answer := "Check your order status in the dashboard.", status := "Active" },
   { id := 3, question := "Is support available 24/7?",
     answer := "Yes, we providing support anytime.", status := "Inactive" }]

structure RoutedFaqState where
  isLoading : Bool := false
  faqs : List RoutedFaqRow := routedFaqInitialFaqs
  deriving Repr

/-- faq/page.tsx `onSubmit` (lines 101-113): no API call at all; the new FAQ is
prepended with the locally computed id `faqs.length + 1`. -/
def routedFaqOnSubmit (s : RoutedFaqState) (question answer : String) : Run RoutedFaqState :=
  let s1 := { s with isLoading := true }
  let newFaq : RoutedFaqRow :=
    { id := s1.faqs.length + 1
      question := question
      answer := answer
      status := "Active" }
  { state := { s1 with isLoading := false, faqs := newFaq :: s1.faqs }
    trace := [.setFlag "isLoading" true, .setFlag "isLoading" false] }

/-! ### The preview-lifecycle invariant used for C7 -/

/-- Invariant of the image-selection/preview machine: created URLs are below the
freshness counter and uniquely labelled; the preview mirrors the selection and,
when a file is selected, holds an effect-created URL for it; every effect-created
URL other than the live one has been revoked; no drop-created URL is ever
revoked; only effect-created URLs get revoked. -/
def PreviewInv (s : PreviewState) : Prop :=
  (∀ u f b, (u, f, b) ∈ s.created → u < s.nextUrl) ∧
  (∀ u f b f' b', (u, f, b) ∈ s.created → (u, f', b') ∈ s.created → f = f' ∧ b = b') ∧
  (match s.selected with
   | none => s.preview = none ∧ s.effectUrl = none
   | some f => ∃ u, s.preview = some u ∧ s.effectUrl = some u ∧ (u, f, false) ∈ s.created) ∧
  (∀ u f, (u, f, false) ∈ s.created → s.effectUrl = some u ∨ u ∈ s.revoked) ∧
  (∀ u f, (u, f, true) ∈ s.created → u ∉ s.revoked) ∧
  (∀ u, u ∈ s.revoked → ∃ f, (u, f, false) ∈ s.created)

/-! ## Theorems -/

/-! ### C10: the two getImageUrl helpers -/

/-- C10 counterexample: the claim says that for every input that neither starts
with `http` nor with `/uploads` the two helpers diverge; at the input
`"/placeholder-image.jpg"` (which starts with neither) they agree, because the
sub-category helper's fallback value is exactly that string. -/
theorem C10_counterexample :
    jsStartsWith "/placeholder-image.jpg" "http" = false ∧
    jsStartsWith "/placeholder-image.jpg" "/uploads" = false ∧
    "/placeholder-image.jpg" ≠ "" ∧
    catGetImageUrl "http://api.example.com" "/placeholder-image.jpg" =
      subGetImageUrl "http://api.example.com" "/placeholder-image.jpg" := by
  refine ⟨by decide, by decide, by decide, by decide⟩

/-- C10 (amended): the category-page and sub-category-page `getImageUrl`
helpers agree exactly on inputs starting with `http`, inputs starting with
`/uploads`, and the single extra input `"/placeholder-image.jpg"`; on every
other input (including the empty string) they diverge, the category page
returning the input itself and the sub page its placeholder. -/
theorem C10_getImageUrl_agreement (env p : String) :
    catGetImageUrl env p = subGetImageUrl env p ↔
      (jsStartsWith p "http" = true ∨ jsStartsWith p "/uploads" = true ∨
        p = "/placeholder-image.jpg") := by
  by_cases h0 : p = ""
  · subst h0
    have h1 : catGetImageUrl env "" = "" := rfl
    have h2 : subGetImageUrl env "" = "/placeholder-image.jpg" := rfl
    rw [h1, h2]
    decide
  · by_cases h1 : jsStartsWith p "http" = true
    · simp [catGetImageUrl, subGetImageUrl, h0, h1]
    · by_cases h2 : jsStartsWith p "/uploads" = true
      · simp [catGetImageUrl, subGetImageUrl, h0, h1, h2]
      · simp [catGetImageUrl, subGetImageUrl, h0, h1, h2]

/-! ### C3: the shared axios interceptors -/

theorem getItem_removeItem (st : Store) (k : String) :
    getItem (removeItem st k) k = none := by
  induction st with
  | nil => rfl
  | cons p rest ih =>
    rw [removeItem, List.filter_cons]
    cases hpk : p.1 == k with
    | true => simpa [removeItem] using ih
    | false =>
      rw [getItem] at ih ⊢
      simp only [Bool.not_false, if_true]
      rw [List.find?_cons_of_neg _ (by simp [hpk])]
      exact ih

theorem find?_filter_keyNe (hs : List (String × String)) (k k' : String)
    (h : (k' == k) = false) :
    ((hs.filter (fun p => !(p.1 == k))).find? (fun p => p.1 == k')) =
      hs.find? (fun p => p.1 == k') := by
  induction hs with
  | nil => rfl
  | cons p rest ih =>
    rw [List.filter_cons]
    cases hpk : p.1 == k with
    | true =>
      have hp1 : p.1 = k := by simpa using hpk
      have hpk' : (p.1 == k') = false := by
        simp only [beq_eq_false_iff_ne] at h ⊢
        exact fun hc => h (hp1 ▸ hc).symm
      simp only [Bool.not_true]
      rw [if_neg (by simp), List.find?_cons_of_neg _ (by simp [hpk'])]
      exact ih
    | false =>
      simp only [Bool.not_false, if_true]
      cases hpk' : p.1 == k' with
      | true =>
        rw [List.find?_cons_of_pos _ (by simp [hpk']), List.find?_cons_of_pos _ (by simp [hpk'])]
      | false =>
        rw [List.find?_cons_of_neg _ (by simp [hpk']), List.find?_cons_of_neg _ (by simp [hpk'])]
        exact ih

theorem getHeader_setHeader_self (hs : List (String × String)) (k v : String) :
    getHeader (setHeader hs k v) k = some v := by
  simp [getHeader, setHeader, List.find?]

theorem getHeader_setHeader_ne (hs : List (String × String)) (k v k' : String)
    (h : (k' == k) = false) : getHeader (setHeader hs k v) k' = getHeader hs k' := by
  have hkk : (k == k') = false := by
    rw [beq_eq_false_iff_ne] at h ⊢
    exact fun hc => h hc.symm
  rw [getHeader, setHeader, List.find?_cons_of_neg _ (by simp [hkk]),
    find?_filter_keyNe hs k k' h]
  rfl

/-- C3 counterexample: with the empty string stored under `auth_token` a value
is stored at request time, yet the request carries no `Authorization` header,
because the interceptor's `if (token)` treats the empty string as falsy. -/
theorem C3_counterexample :
    getItem [("auth_token", "")] "auth_token" = some "" ∧
    getHeader (requestInterceptor [("auth_token", "")] []) "Authorization" = none := by
  refine ⟨rfl, rfl⟩

/-- C3 (amended): a request carries `Authorization: Bearer <token>` exactly when
a NON-EMPTY value is stored under `auth_token` at request time (an untouched
pre-existing header survives otherwise); a 401 received away from `/login`
removes the stored token and redirects to `/login`; a 401 on `/login` changes
nothing; any other outcome changes nothing. -/
theorem C3_auth_header_and_401 :
    (∀ (st : Store) (hs : List (String × String)),
      getHeader (requestInterceptor st hs) "Authorization" =
        match getItem st "auth_token" with
        | some t => if t = "" then getHeader hs "Authorization" else some ("Bearer " ++ t)
        | none => getHeader hs "Authorization") ∧
    (∀ (st : Store) (path : String),
      getItem (applyResponseError st (some 401) path).1 "auth_token" =
        (if path = "/login" then getItem st "auth_token" else none) ∧
      (applyResponseError st (some 401) path).2 =
        (if path = "/login" then none else some "/login")) ∧
    (∀ (st : Store) (n : Nat) (path : String), n ≠ 401 →
      applyResponseError st (some n) path = (st, none)) ∧
    (∀ (st : Store) (path : String), applyResponseError st none path = (st, none)) := by
  refine ⟨?_, ?_, ?_, ?_⟩
  · intro st hs
    unfold requestInterceptor
    cases htok : getItem st "auth_token" with
    | none =>
      simp only [htok]
      exact getHeader_setHeader_ne _ _ _ _ (by decide)
    | some t =>
      by_cases ht : t = ""
      · simp only [htok, ht, if_pos rfl]
        exact getHeader_setHeader_ne _ _ _ _ (by decide)
      · simp only [htok, if_neg ht]
        rw [getHeader_setHeader_ne _ _ _ _ (by decide)]
        exact getHeader_setHeader_self _ _ _
  · intro st path
    by_cases hp : path = "/login"
    · simp [applyResponseError, hp]
    · simp [applyResponseError, hp, getItem_removeItem]
  · intro st n path hn
    simp [applyResponseError, hn]
  · intro st path
    simp [applyResponseError]

/-- Witness for C3's amended theorem at concrete inputs. -/
theorem C3_auth_header_and_401_witness :
    (404 : Nat) ≠ 401 ∧
    applyResponseError [("auth_token", "tok")] (some 404) "/dashboard" =
      ([("auth_token", "tok")], none) := by
  exact ⟨by decide, C3_auth_header_and_401.2.2.1 [("auth_token", "tok")] 404 "/dashboard" (by decide)⟩

/-! ### C2: form validation gates every submit handler -/

/-- C2: on each of the six forms the network-calling submit handler runs exactly
when every declared constraint holds — in particular every text field meets its
declared minimum length (category name ≥ 2, sub-category name ≥ 2, blog title
≥ 5, FAQ question ≥ 10 and answer ≥ 20, passwords ≥ 6); whenever a field is
below its minimum, the flow produces no effects at all (so no request is sent)
and exposes that field's declared error message. -/
theorem C2_validation_gates :
    (∀ (s : CatState) (v : CatFormValues) (mutRes refetchRes : Outcome CategoryRow),
      (2 ≤ v.name.length →
        categorySubmitFlow s v mutRes refetchRes = (catOnSubmit s v mutRes refetchRes, [])) ∧
      (v.name.length < 2 →
        (categorySubmitFlow s v mutRes refetchRes).1.trace = [] ∧
        ⟨"name", "Category name must be at least 2 characters"⟩ ∈
          (categorySubmitFlow s v mutRes refetchRes).2)) ∧
    (∀ (s : SubState) (categoryId name : String) (mutRes refetchRes : Outcome ParentCategory),
      (1 ≤ categoryId.length → 2 ≤ name.length →
        subSubmitFlow s categoryId name mutRes refetchRes =
          (subOnSubmitForm s mutRes refetchRes, [])) ∧
      (name.length < 2 →
        (subSubmitFlow s categoryId name mutRes refetchRes).1.trace = [] ∧
        ⟨"name", "Sub-category name must be at least 2 characters"⟩ ∈
          (subSubmitFlow s categoryId name mutRes refetchRes).2)) ∧
    (∀ (s : BlogState) (title sd ld date : String) (mutRes refetchRes : Outcome BlogRow),
      (5 ≤ title.length → 10 ≤ sd.length → 20 ≤ ld.length → 1 ≤ date.length →
        blogSubmitFlow s title sd ld date mutRes refetchRes =
          (blogOnSubmit s mutRes refetchRes, [])) ∧
      (title.length < 5 →
        (blogSubmitFlow s title sd ld date mutRes refetchRes).1.trace = [] ∧
        ⟨"title", "Title must be at least 5 characters"⟩ ∈
          (blogSubmitFlow s title sd ld date mutRes refetchRes).2)) ∧
    (∀ (s : FaqState) (question answer : String) (mutRes refetchRes : Outcome FaqRaw),
      (10 ≤ question.length → 20 ≤ answer.length →
        faqSubmitFlow s question answer mutRes refetchRes = (faqOnSubmit s mutRes refetchRes, [])) ∧
      (question.length < 10 →
        (faqSubmitFlow s question answer mutRes refetchRes).1.trace = [] ∧
        ⟨"question", "Question must be at least 10 characters"⟩ ∈
          (faqSubmitFlow s question answer mutRes refetchRes).2) ∧
      (answer.length < 20 →
        (faqSubmitFlow s question answer mutRes refetchRes).1.trace = [] ∧
        ⟨"answer", "Answer must be at least 20 characters"⟩ ∈
          (faqSubmitFlow s question answer mutRes refetchRes).2)) ∧
    (∀ (s : AuthState) (emailValid : Bool) (password : String)
        (res : Except ApiError (Nat × Option LoginBody)),
      (emailValid = true → 6 ≤ password.length →
        loginSubmitFlow s emailValid password res = (loginOnSubmit s res, [])) ∧
      (password.length < 6 →
        (loginSubmitFlow s emailValid password res).1.trace = [] ∧
        ⟨"password", "Password must be at least 6 characters"⟩ ∈
          (loginSubmitFlow s emailValid password res).2)) ∧
    (∀ (s : AuthState) (name : String) (emailValid : Bool) (phone password : String)
        (res : Except ApiError (Nat × Option LoginBody)),
      (2 ≤ name.length → emailValid = true → 10 ≤ phone.length → 6 ≤ password.length →
        registerSubmitFlow s name emailValid phone password res = (registerOnSubmit s res, [])) ∧
      (password.length < 6 →
        (registerSubmitFlow s name emailValid phone password res).1.trace = [] ∧
        ⟨"password", "Password must be at least 6 characters"⟩ ∈
          (registerSubmitFlow s name emailValid phone password res).2)) := by
  refine ⟨?_, ?_, ?_, ?_, ?_, ?_⟩
  · intro s v mutRes refetchRes
    constructor
    · intro h
      simp [categorySubmitFlow, handleSubmitGate, categoryValidate, Nat.not_lt.mpr h]
    · intro h
      simp [categorySubmitFlow, handleSubmitGate, categoryValidate, h]
  · intro s categoryId name mutRes refetchRes
    constructor
    · intro h1 h2
      simp [subSubmitFlow, handleSubmitGate, subCategoryValidate,
        Nat.not_lt.mpr h1, Nat.not_lt.mpr h2]
    · intro h
      by_cases h1 : categoryId.length < 1 <;>
        simp [subSubmitFlow, handleSubmitGate, subCategoryValidate, h, h1]
  · intro s title sd ld date mutRes refetchRes
    constructor
    · intro h1 h2 h3 h4
      simp [blogSubmitFlow, handleSubmitGate, blogValidate,
        Nat.not_lt.mpr h1, Nat.not_lt.mpr h2, Nat.not_lt.mpr h3, Nat.not_lt.mpr h4]
    · intro h
      by_cases h2 : sd.length < 10 <;> by_cases h3 : ld.length < 20 <;>
        by_cases h4 : date.length < 1 <;>
        simp [blogSubmitFlow, handleSubmitGate, blogValidate, h, h2, h3, h4]
  · intro s question answer mutRes refetchRes
    refine ⟨?_, ?_, ?_⟩
    · intro h1 h2
      simp [faqSubmitFlow, handleSubmitGate, faqValidate, Nat.not_lt.mpr h1, Nat.not_lt.mpr h2]
    · intro h
      by_cases h2 : answer.length < 20 <;>
        simp [faqSubmitFlow, handleSubmitGate, faqValidate, h, h2]
    · intro h
      by_cases h1 : question.length < 10 <;>
        simp [faqSubmitFlow, handleSubmitGate, faqValidate, h, h1]
  · intro s emailValid password res
    constructor
    · intro h1 h2
      simp [loginSubmitFlow, handleSubmitGate, loginValidate, h1, Nat.not_lt.mpr h2]
    · intro h
      by_cases h1 : emailValid <;>
        simp [loginSubmitFlow, handleSubmitGate, loginValidate, h, h1]
  · intro s name emailValid phone password res
    constructor
    · intro h1 h2 h3 h4
      simp [registerSubmitFlow, handleSubmitGate, registerValidate, h2,
        Nat.not_lt.mpr h1, Nat.not_lt.mpr h3, Nat.not_lt.mpr h4]
    · intro h
      by_cases h1 : name.length < 2 <;> by_cases h2 : emailValid <;>
        by_cases h3 : phone.length < 10 <;>
        simp [registerSubmitFlow, handleSubmitGate, registerValidate, h, h1, h2, h3]

/-- Witness for C2 at concrete inputs: a one-character category name produces
no effects and the declared error; a valid two-character name runs the handler. -/
theorem C2_validation_gates_witness :
    ((categorySubmitFlow {} { name := "a" } (.error {}) (.error {})).1.trace = [] ∧
      (⟨"name", "Category name must be at least 2 characters"⟩ : FieldError) ∈
        (categorySubmitFlow {} { name := "a" } (.error {}) (.error {})).2) ∧
    categorySubmitFlow {} { name := "ab" } (.error {}) (.error {}) =
      (catOnSubmit {} { name := "ab" } (.error {}) (.error {}), []) := by
  exact ⟨(C2_validation_gates.1 {} { name := "a" } (.error {}) (.error {})).2 (by decide),
    (C2_validation_gates.1 {} { name := "ab" } (.error {}) (.error {})).1 (by decide)⟩

/-! ### C7: image preview lifecycle -/

theorem previewInv_init : PreviewInv {} := by
  refine ⟨?_, ?_, ?_, ?_, ?_, ?_⟩ <;> simp [PreviewInv]

theorem createdExtBound (n f : Nat) (created : List (Nat × Nat × Bool))
    (hbound : ∀ u g b, (u, g, b) ∈ created → u < n) :
    ∀ u g b, (u, g, b) ∈ (n + 1, f, false) :: (n, f, true) :: created → u < n + 2 := by
  intro u g b hm
  simp only [List.mem_cons, Prod.mk.injEq] at hm
  rcases hm with ⟨h1, h2, h3⟩ | ⟨h1, h2, h3⟩ | h1
  · omega
  · omega
  · have := hbound u g b h1
    omega

theorem createdExtUniq (n f : Nat) (created : List (Nat × Nat × Bool))
    (hbound : ∀ u g b, (u, g, b) ∈ created → u < n)
    (huniq : ∀ u g b g' b', (u, g, b) ∈ created → (u, g', b') ∈ created → g = g' ∧ b = b') :
    ∀ u g b g' b', (u, g, b) ∈ (n + 1, f, false) :: (n, f, true) :: created →
      (u, g', b') ∈ (n + 1, f, false) :: (n, f, true) :: created → g = g' ∧ b = b' := by
  intro u g b g' b' hm hm'
  simp only [List.mem_cons, Prod.mk.injEq] at hm hm'
  rcases hm with ⟨h1, h2, h3⟩ | ⟨h1, h2, h3⟩ | h1 <;>
    rcases hm' with ⟨k1, k2, k3⟩ | ⟨k1, k2, k3⟩ | k1
  · exact ⟨by omega, by rw [h3, k3]⟩
  · exfalso
    omega
  · exfalso
    have := hbound u g' b' k1
    omega
  · exfalso
    omega
  · exact ⟨by omega, by rw [h3, k3]⟩
  · exfalso
    have := hbound u g' b' k1
    omega
  · exfalso
    have := hbound u g b h1
    omega
  · exfalso
    have := hbound u g b h1
    omega
  · exact huniq u g b g' b' h1 k1

theorem previewInv_step (s : PreviewState) (e : PreviewEvent) (h : PreviewInv s) :
    PreviewInv (previewStep s e) := by
  obtain ⟨sel, prev, eff, created, revoked, nextUrl⟩ := s
  obtain ⟨hbound, huniq, hsel, hfalse, htrue, hrev⟩ := h
  dsimp only at hbound huniq hsel hfalse htrue hrev
  cases e with
  | clear =>
    cases sel with
    | none =>
      obtain ⟨hprev, heff⟩ := hsel
      subst heff
      simp only [previewStep, runPreviewEffect, PreviewInv]
      refine ⟨hbound, huniq, ⟨trivial, trivial⟩, ?_, htrue, hrev⟩
      intro u f hm
      rcases hfalse u f hm with h1 | h1
      · exact absurd h1 (by simp)
      · exact Or.inr h1
    | some f₀ =>
      obtain ⟨u₁, hprev, heff, hmem⟩ := hsel
      subst heff
      simp only [previewStep, runPreviewEffect, PreviewInv]
      refine ⟨hbound, huniq, ⟨trivial, trivial⟩, ?_, ?_, ?_⟩
      · intro u f hm
        rcases hfalse u f hm with h1 | h1
        · have hu : u₁ = u := by injection h1
          subst hu
          exact Or.inr (List.mem_cons_self _ _)
        · exact Or.inr (List.mem_cons_of_mem _ h1)
      · intro u f hm hin
        rcases List.mem_cons.mp hin with rfl | hin'
        · exact absurd (huniq u f true f₀ false hm hmem).2 (by simp)
        · exact htrue u f hm hin'
      · intro u hin
        rcases List.mem_cons.mp hin with rfl | hin'
        · exact ⟨f₀, hmem⟩
        · exact hrev u hin'
  | drop f =>
    cases sel with
    | none =>
      obtain ⟨hprev, heff⟩ := hsel
      subst heff
      simp only [previewStep, runPreviewEffect, PreviewInv]
      refine ⟨createdExtBound nextUrl f created hbound,
        createdExtUniq nextUrl f created hbound huniq,
        ⟨nextUrl + 1, rfl, rfl, List.mem_cons_self _ _⟩, ?_, ?_, ?_⟩
      · intro u g hm
        simp only [previewStep, runPreviewEffect, List.mem_cons, Prod.mk.injEq] at hm
        rcases hm with ⟨h1, h2, h3⟩ | ⟨h1, h2, h3⟩ | h1
        · exact Or.inl (by rw [h1])
        · exact absurd h3 (by simp)
        · rcases hfalse u g h1 with h2 | h2
          · exact absurd h2 (by simp)
          · exact Or.inr h2
      · intro u g hm hin
        simp only [previewStep, runPreviewEffect, List.mem_cons, Prod.mk.injEq] at hm
        rcases hm with ⟨h1, h2, h3⟩ | ⟨h1, h2, h3⟩ | h1
        · obtain ⟨g', hg'⟩ := hrev u hin
          have := hbound u g' false hg'
          omega
        · obtain ⟨g', hg'⟩ := hrev u hin
          have := hbound u g' false hg'
          omega
        · exact htrue u g h1 hin
      · intro u hin
        obtain ⟨g, hg⟩ := hrev u hin
        exact ⟨g, List.mem_cons_of_mem _ (List.mem_cons_of_mem _ hg)⟩
    | some f₀ =>
      obtain ⟨u₁, hprev, heff, hmem⟩ := hsel
      subst heff
      simp only [previewStep, runPreviewEffect, PreviewInv]
      have hu₁lt : u₁ < nextUrl := hbound u₁ f₀ false hmem
      refine ⟨createdExtBound nextUrl f created hbound,
        createdExtUniq nextUrl f created hbound huniq,
        ⟨nextUrl + 1, rfl, rfl, List.mem_cons_self _ _⟩, ?_, ?_, ?_⟩
      · intro u g hm
        simp only [previewStep, runPreviewEffect, List.mem_cons, Prod.mk.injEq] at hm
        rcases hm with ⟨h1, h2, h3⟩ | ⟨h1, h2, h3⟩ | h1
        · exact Or.inl (by rw [h1])
        · exact absurd h3 (by simp)
        · rcases hfalse u g h1 with h2 | h2
          · have hu : u₁ = u := by injection h2
            subst hu
            exact Or.inr (List.mem_cons_self _ _)
          · exact Or.inr (List.mem_cons_of_mem _ h2)
      · intro u g hm hin
        simp only [previewStep, runPreviewEffect, List.mem_cons, Prod.mk.injEq] at hm
        rcases List.mem_cons.mp hin with heq | hin'
        · subst heq
          rcases hm with ⟨h1, h2, h3⟩ | ⟨h1, h2, h3⟩ | h1
          · omega
          · omega
          · exact absurd (huniq u g true f₀ false h1 hmem).2 (by simp)
        · rcases hm with ⟨h1, h2, h3⟩ | ⟨h1, h2, h3⟩ | h1
          · obtain ⟨g', hg'⟩ := hrev u hin'
            have := hbound u g' false hg'
            omega
          · obtain ⟨g', hg'⟩ := hrev u hin'
            have := hbound u g' false hg'
            omega
          · exact htrue u g h1 hin'
      · intro u hin
        rcases List.mem_cons.mp hin with rfl | hin'
        · exact ⟨f₀, List.mem_cons_of_mem _ (List.mem_cons_of_mem _ hmem)⟩
        · obtain ⟨g, hg⟩ := hrev u hin'
          exact ⟨g, List.mem_cons_of_mem _ (List.mem_cons_of_mem _ hg)⟩

theorem previewInv_runPreview (events : List PreviewEvent) :
    PreviewInv (runPreview events) := by
  rw [runPreview]
  induction events using List.reverseRecOn with
  | nil => exact previewInv_init
  | append_singleton l e ih =>
    rw [List.foldl_append, List.foldl_cons, List.foldl_nil]
    exact previewInv_step _ e ih

/-- C7 counterexample: drop one file and then clear the selection. `onDrop`
created object URL 0 for the dropped file, the selection is gone, yet URL 0 was
never revoked — `onDrop`'s URL leaks, so not every object URL created for the
previously selected file is revoked. -/
theorem C7_counterexample :
    ((0, 0, true) ∈ (runPreview [.drop 0, .clear]).created) ∧
    (runPreview [.drop 0, .clear]).selected = none ∧
    0 ∉ (runPreview [.drop 0, .clear]).revoked := by
  refine ⟨by decide, by decide, by decide⟩

/-- C7 (amended): after any sequence of drop/clear events the preview state is
`null` exactly when no file is selected and otherwise holds an object URL
created for the currently selected file; whenever the selection changes, the URL
created by the preview effect for the previous file is revoked (every
effect-created URL except the live one is in the revoked set), but the extra URL
created inside `onDrop` itself is never revoked — it leaks. -/
theorem C7_preview_lifecycle (events : List PreviewEvent) :
    ((runPreview events).selected = none → (runPreview events).preview = none) ∧
    (∀ f, (runPreview events).selected = some f →
      ∃ u, (runPreview events).preview = some u ∧ (u, f, false) ∈ (runPreview events).created) ∧
    (∀ u f, (u, f, false) ∈ (runPreview events).created →
      (runPreview events).effectUrl = some u ∨ u ∈ (runPreview events).revoked) ∧
    (∀ u f, (u, f, true) ∈ (runPreview events).created → u ∉ (runPreview events).revoked) := by
  obtain ⟨hbound, huniq, hsel, hfalse, htrue, hrev⟩ := previewInv_runPreview events
  refine ⟨?_, ?_, hfalse, htrue⟩
  · intro hnone
    rw [hnone] at hsel
    exact hsel.1
  · intro f hf
    rw [hf] at hsel
    obtain ⟨u, hprev, _, hmem⟩ := hsel
    exact ⟨u, hprev, hmem⟩

/-- Witness for C7's amended theorem on a concrete event sequence. -/
theorem C7_preview_lifecycle_witness :
    (runPreview [.drop 3, .clear]).selected = none ∧
    (runPreview [.drop 3, .clear]).preview = none := by
  exact ⟨by decide, (C7_preview_lifecycle [.drop 3, .clear]).1 (by decide)⟩

/-! ### C6: search debouncing -/

theorem debounceEmits_sub (d : Nat) :
    ∀ l : List (Nat × String), ∀ e ∈ debounceEmits d l, e ∈ l := by
  intro l
  induction l with
  | nil => simp [debounceEmits]
  | cons a tl ih =>
    cases tl with
    | nil =>
      intro e he
      simp only [debounceEmits, List.mem_singleton] at he
      simp [he]
    | cons b tl' =>
      intro e he
      rw [debounceEmits] at he
      by_cases hcond : a.1 + d ≤ b.1
      · rw [if_pos hcond] at he
        rcases List.mem_cons.mp he with rfl | he'
        · exact List.mem_cons_self _ _
        · exact List.mem_cons_of_mem _ (ih e he')
      · rw [if_neg hcond] at he
        exact List.mem_cons_of_mem _ (ih e he)

theorem debounceEmits_gap (d : Nat) :
    ∀ l : List (Nat × String), l.Pairwise (fun a b => a.1 < b.1) →
      ∀ e ∈ debounceEmits d l, ∀ e₂ ∈ l, e.1 < e₂.1 → e.1 + d ≤ e₂.1 := by
  intro l
  induction l with
  | nil => simp
  | cons a tl ih =>
    intro hp e he e₂ he₂ hlt
    obtain ⟨ha, hp'⟩ := List.pairwise_cons.mp hp
    cases tl with
    | nil =>
      simp only [debounceEmits, List.mem_singleton] at he
      subst he
      rcases List.mem_singleton.mp he₂ with rfl
      omega
    | cons b tl' =>
      rw [debounceEmits] at he
      by_cases hcond : a.1 + d ≤ b.1
      · rw [if_pos hcond] at he
        rcases List.mem_cons.mp he with rfl | he'
        · rcases List.mem_cons.mp he₂ with rfl | he₂'
          · omega
          · rcases List.mem_cons.mp he₂' with rfl | he₂''
            · exact hcond
            · have hb := (List.pairwise_cons.mp hp').1 e₂ he₂''
              omega
        · rcases List.mem_cons.mp he₂ with rfl | he₂'
          · have hmem := debounceEmits_sub d (b :: tl') e he'
            have := ha e hmem
            omega
          · exact ih hp' e he' e₂ he₂' hlt
      · rw [if_neg hcond] at he
        rcases List.mem_cons.mp he₂ with rfl | he₂'
        · have hmem := debounceEmits_sub d (b :: tl') e he
          have := ha e hmem
          omega
        · exact ih hp' e he e₂ he₂' hlt

theorem debounceEmits_not_intermediate (d : Nat) :
    ∀ (l₁ : List (Nat × String)) (t : Nat) (v : String) (t' : Nat) (v' : String)
      (l₂ : List (Nat × String)),
      (l₁ ++ (t, v) :: (t', v') :: l₂).Pairwise (fun a b => a.1 < b.1) →
      t' < t + d →
      (t, v) ∉ debounceEmits d (l₁ ++ (t, v) :: (t', v') :: l₂) := by
  intro l₁
  induction l₁ with
  | nil =>
    intro t v t' v' l₂ hp hlt hin
    simp only [List.nil_append] at hp hin
    rw [debounceEmits, if_neg (by omega)] at hin
    have hmem := debounceEmits_sub d ((t', v') :: l₂) _ hin
    have := (List.pairwise_cons.mp hp).1 (t, v) hmem
    omega
  | cons a l₁' ih =>
    intro t v t' v' l₂ hp hlt hin
    rw [List.cons_append] at hp hin
    obtain ⟨ha, hp'⟩ := List.pairwise_cons.mp hp
    have hat : a.1 < t := ha (t, v) (by simp)
    have hni := ih t v t' v' l₂ hp' hlt
    cases hl : l₁' ++ (t, v) :: (t', v') :: l₂ with
    | nil => exact absurd hl (by simp)
    | cons b rest =>
      rw [hl] at hin hni
      rw [debounceEmits] at hin
      by_cases hcond : a.1 + d ≤ b.1
      · rw [if_pos hcond] at hin
        rcases List.mem_cons.mp hin with heq | hin'
        · have hta : t = a.1 := congrArg Prod.fst heq
          omega
        · exact hni hin'
      · rw [if_neg hcond] at hin
        exact hni hin

theorem dedupFrom_sub : ∀ (prev : String) (l : List String), ∀ x ∈ dedupFrom prev l, x ∈ l := by
  intro prev l
  induction l generalizing prev with
  | nil => simp [dedupFrom]
  | cons a tl ih =>
    intro x hx
    rw [dedupFrom] at hx
    by_cases ha : a = prev
    · rw [if_pos ha] at hx
      exact List.mem_cons_of_mem _ (ih prev x hx)
    · rw [if_neg ha] at hx
      rcases List.mem_cons.mp hx with rfl | hx'
      · exact List.mem_cons_self _ _
      · exact List.mem_cons_of_mem _ (ih a x hx')

/-- C6: with the pages' 600 ms debounce, (i) a value is emitted by the debouncer
only if it is an actual search-box edit that stayed unchanged for the full
600 ms (every strictly later edit is at least 600 ms after it); (ii) an edit
followed by another edit within less than 600 ms — an intermediate value — is
never emitted, its timer being cleared; (iii) every search term the pages'
`[debouncedSearch]` effect fetches for comes from such an emission. -/
theorem C6_debounce_only_settled (edits : List (Nat × String))
    (hsorted : edits.Pairwise (fun a b => a.1 < b.1)) :
    (∀ e ∈ debounceEmits 600 edits, e ∈ edits ∧
      ∀ e₂ ∈ edits, e.1 < e₂.1 → e.1 + 600 ≤ e₂.1) ∧
    (∀ (l₁ : List (Nat × String)) (t : Nat) (v : String) (t' : Nat) (v' : String)
        (l₂ : List (Nat × String)),
      edits = l₁ ++ (t, v) :: (t', v') :: l₂ → t' < t + 600 →
      (t, v) ∉ debounceEmits 600 edits) ∧
    (∀ s ∈ searchFetchTerms 600 edits, ∃ t, (t, s) ∈ debounceEmits 600 edits) := by
  refine ⟨?_, ?_, ?_⟩
  · intro e he
    exact ⟨debounceEmits_sub 600 edits e he, debounceEmits_gap 600 edits hsorted e he⟩
  · intro l₁ t v t' v' l₂ heq hlt
    subst heq
    exact debounceEmits_not_intermediate 600 l₁ t v t' v' l₂ hsorted hlt
  · intro s hs
    have hmem := dedupFrom_sub "" _ s hs
    obtain ⟨e, hemem, hsnd⟩ := List.mem_map.mp hmem
    exact ⟨e.1, by rw [← hsnd]; simpa using hemem⟩

/-- Witness for C6 on a concrete edit sequence: typing `a`, then `ab` 100 ms
later, then waiting: only `ab` is fetched, and the intermediate `a` is not
emitted. -/
theorem C6_debounce_only_settled_witness :
    ((0, "a"), (100, "ab")) ∈
      [((0 : Nat), "a")].zip [((100 : Nat), "ab")] ∧
    ((0, "a") ∉ debounceEmits 600 [(0, "a"), (100, "ab")]) ∧
    (∃ t, (t, "ab") ∈ debounceEmits 600 [(0, "a"), (100, "ab")]) := by
  refine ⟨by decide, ?_, ?_⟩
  · exact (C6_debounce_only_settled [(0, "a"), (100, "ab")] (by decide)).2.1 [] 0 "a" 100 "ab" []
      rfl (by decide)
  · exact (C6_debounce_only_settled [(0, "a"), (100, "ab")] (by decide)).2.2 "ab" (by decide)

/-! ### C1: successful mutations re-fetch the list; failed ones leave it alone -/

/-- C1: for the category, blog and FAQ pages, every create/update/delete
mutation whose awaited request resolves with a (truthy-bodied) response
re-fetches the entity list before the handler completes, passing the page's
currently active search term (`debouncedSearch` on the category and blog pages,
`searchText` on the FAQ page), and the displayed list then equals the rows of
the re-fetch response; a rejected mutation triggers no re-fetch (no GET appears
in the trace) and leaves the list state unchanged. -/
theorem C1_mutation_refetch :
    -- category onSubmit, success: re-fetch with the active search term ...
    (∀ (s : CatState) (v : CatFormValues) (b : RespBody CategoryRow)
        (refetchRes : Outcome CategoryRow),
      .apiGet endPointApi.getCategoryList (searchParam s.debouncedSearch) ∈
        (catOnSubmit s v (.ok (some b)) refetchRes).trace) ∧
    -- ... and the displayed list is the fresh server copy
    (∀ (s : CatState) (v : CatFormValues) (b rb : RespBody CategoryRow)
        (rows : List CategoryRow),
      (catOnSubmit s v (.ok (some b)) (.ok (some { rb with data := some rows }))).state.categories
        = rows) ∧
    -- category onSubmit, rejection: no re-fetch, list unchanged
    (∀ (s : CatState) (v : CatFormValues) (e : ApiError) (refetchRes : Outcome CategoryRow),
      (∀ ep q, .apiGet ep q ∉ (catOnSubmit s v (.error e) refetchRes).trace) ∧
      (catOnSubmit s v (.error e) refetchRes).state.categories = s.categories) ∧
    -- category delete, success
    (∀ (s : CatState) (c : CategoryRow) (db : Option (RespBody CategoryRow))
        (refetchRes : Outcome CategoryRow),
      .apiGet endPointApi.getCategoryList (searchParam s.debouncedSearch) ∈
        (catHandleConfirmDelete { s with categoryToDelete := some c } (.ok db) refetchRes).trace) ∧
    (∀ (s : CatState) (c : CategoryRow) (db : Option (RespBody CategoryRow))
        (rb : RespBody CategoryRow) (rows : List CategoryRow),
      (catHandleConfirmDelete { s with categoryToDelete := some c } (.ok db)
        (.ok (some { rb with data := some rows }))).state.categories = rows) ∧
    -- category delete, rejection
    (∀ (s : CatState) (c : CategoryRow) (e : ApiError) (refetchRes : Outcome CategoryRow),
      (∀ ep q, .apiGet ep q ∉
        (catHandleConfirmDelete { s with categoryToDelete := some c } (.error e) refetchRes).trace) ∧
      (catHandleConfirmDelete { s with categoryToDelete := some c }
        (.error e) refetchRes).state.categories = s.categories) ∧
    -- blog onSubmit, success
    (∀ (s : BlogState) (b : RespBody BlogRow) (refetchRes : Outcome BlogRow),
      .apiGet endPointApi.getAllBlogs (searchParam s.debouncedSearch) ∈
        (blogOnSubmit s (.ok (some b)) refetchRes).trace) ∧
    (∀ (s : BlogState) (b rb : RespBody BlogRow) (rows : List BlogRow),
      (blogOnSubmit s (.ok (some b)) (.ok (some { rb with data := some rows }))).state.filteredBlogs
        = rows ∧
      (blogOnSubmit s (.ok (some b)) (.ok (some { rb with data := some rows }))).state.blogs
        = rows) ∧
    -- blog onSubmit, rejection
    (∀ (s : BlogState) (e : ApiError) (refetchRes : Outcome BlogRow),
      (∀ ep q, .apiGet ep q ∉ (blogOnSubmit s (.error e) refetchRes).trace) ∧
      (blogOnSubmit s (.error e) refetchRes).state.blogs = s.blogs ∧
      (blogOnSubmit s (.error e) refetchRes).state.filteredBlogs = s.filteredBlogs) ∧
    -- blog delete, success / rejection
    (∀ (s : BlogState) (id : String) (b : RespBody BlogRow) (refetchRes : Outcome BlogRow),
      .apiGet endPointApi.getAllBlogs (searchParam s.debouncedSearch) ∈
        (blogHandleDelete s id true (.ok (some b)) refetchRes).trace) ∧
    (∀ (s : BlogState) (id : String) (b rb : RespBody BlogRow) (rows : List BlogRow),
      (blogHandleDelete s id true (.ok (some b))
        (.ok (some { rb with data := some rows }))).state.filteredBlogs = rows) ∧
    (∀ (s : BlogState) (id : String) (e : ApiError) (refetchRes : Outcome BlogRow),
      (∀ ep q, .apiGet ep q ∉ (blogHandleDelete s id true (.error e) refetchRes).trace) ∧
      (blogHandleDelete s id true (.error e) refetchRes).state.blogs = s.blogs ∧
      (blogHandleDelete s id true (.error e) refetchRes).state.filteredBlogs = s.filteredBlogs) ∧
    -- FAQ onSubmit, success: re-fetch with the current `searchText`
    (∀ (s : FaqState) (b : RespBody FaqRaw) (refetchRes : Outcome FaqRaw),
      .apiGet endPointApi.getAllFAQs (if s.searchText = "" then none else some s.searchText) ∈
        (faqOnSubmit s (.ok (some b)) refetchRes).trace) ∧
    (∀ (s : FaqState) (b rb : RespBody FaqRaw) (raws : List FaqRaw),
      (faqOnSubmit s (.ok (some b)) (.ok (some { rb with data := some raws }))).state.filteredFaqs
        = raws.map formatFaq) ∧
    -- FAQ onSubmit, rejection
    (∀ (s : FaqState) (e : ApiError) (refetchRes : Outcome FaqRaw),
      (∀ ep q, .apiGet ep q ∉ (faqOnSubmit s (.error e) refetchRes).trace) ∧
      (faqOnSubmit s (.error e) refetchRes).state.faqs = s.faqs ∧
      (faqOnSubmit s (.error e) refetchRes).state.filteredFaqs = s.filteredFaqs) ∧
    -- FAQ delete, success / rejection
    (∀ (s : FaqState) (id : String) (b : RespBody FaqRaw) (refetchRes : Outcome FaqRaw),
      .apiGet endPointApi.getAllFAQs (if s.searchText = "" then none else some s.searchText) ∈
        (faqHandleDelete s id true (.ok (some b)) refetchRes).trace) ∧
    (∀ (s : FaqState) (id : String) (b rb : RespBody FaqRaw) (raws : List FaqRaw),
      (faqHandleDelete s id true (.ok (some b))
        (.ok (some { rb with data := some raws }))).state.filteredFaqs = raws.map formatFaq) ∧
    (∀ (s : FaqState) (id : String) (e : ApiError) (refetchRes : Outcome FaqRaw),
      (∀ ep q, .apiGet ep q ∉ (faqHandleDelete s id true (.error e) refetchRes).trace) ∧
      (faqHandleDelete s id true (.error e) refetchRes).state.faqs = s.faqs ∧
      (faqHandleDelete s id true (.error e) refetchRes).state.filteredFaqs = s.filteredFaqs) := by
  refine ⟨?_, ?_, ?_, ?_, ?_, ?_, ?_, ?_, ?_, ?_, ?_, ?_, ?_, ?_, ?_, ?_, ?_, ?_⟩
  · intro s v b refetchRes
    cases hid : s.editingId <;> cases refetchRes <;>
      simp [catOnSubmit, catFetchCategories, hid, searchParam]
  · intro s v b rb rows
    cases hid : s.editingId <;>
      simp [catOnSubmit, catFetchCategories, hid]
  · intro s v e refetchRes
    cases hid : s.editingId <;>
      simp [catOnSubmit, catMutationReq, hid]
  · intro s c db refetchRes
    cases refetchRes <;>
      simp [catHandleConfirmDelete, catFetchCategories, searchParam]
  · intro s c db rb rows
    simp [catHandleConfirmDelete, catFetchCategories]
  · intro s c e refetchRes
    simp [catHandleConfirmDelete]
  · intro s b refetchRes
    cases hid : s.editingId <;> cases refetchRes <;>
      simp [blogOnSubmit, updateBlog, createBlog, fetchBlogs, hid, searchParam]
  · intro s b rb rows
    cases hid : s.editingId <;>
      simp [blogOnSubmit, updateBlog, createBlog, fetchBlogs, hid]
  · intro s e refetchRes
    cases hid : s.editingId <;>
      simp [blogOnSubmit, updateBlog, createBlog, hid]
  · intro s id b refetchRes
    cases refetchRes <;>
      simp [blogHandleDelete, deleteBlog, fetchBlogs, searchParam]
  · intro s id b rb rows
    simp [blogHandleDelete, deleteBlog, fetchBlogs]
  · intro s id e refetchRes
    simp [blogHandleDelete, deleteBlog]
  · intro s b refetchRes
    cases hid : s.editingId <;> by_cases hst : s.searchText = "" <;> cases refetchRes <;>
      simp [faqOnSubmit, updateFAQ, createFAQ, faqRefresh, fetchFAQs, searchFAQs, hid, hst]
  · intro s b rb raws
    cases hid : s.editingId <;> by_cases hst : s.searchText = "" <;>
      simp [faqOnSubmit, updateFAQ, createFAQ, faqRefresh, fetchFAQs, searchFAQs, hid, hst]
  · intro s e refetchRes
    cases hid : s.editingId <;>
      simp [faqOnSubmit, updateFAQ, createFAQ, hid]
  · intro s id b refetchRes
    by_cases hst : s.searchText = "" <;> cases refetchRes <;>
      simp [faqHandleDelete, deleteFAQ, faqRefresh, fetchFAQs, searchFAQs, hst]
  · intro s id b rb raws
    by_cases hst : s.searchText = "" <;>
      simp [faqHandleDelete, deleteFAQ, faqRefresh, fetchFAQs, searchFAQs, hst]
  · intro s id e refetchRes
    simp [faqHandleDelete, deleteFAQ]

/-- Witness for C1 at a concrete input: a successful create on the category
page re-fetches the list with the (empty) active search term. -/
theorem C1_mutation_refetch_witness :
    .apiGet endPointApi.getCategoryList (searchParam ({} : CatState).debouncedSearch) ∈
      (catOnSubmit {} {} (.ok (some {})) (.ok (some {}))).trace :=
  C1_mutation_refetch.1 {} {} {} (.ok (some {}))

/-! ### C4: error surfacing -/

/-- C4 counterexample: the vendors page's `fetchDropdowns` catches a failed
request and surfaces NO notification at all; and `fetchCategories` does not use
the server-provided message even when one exists — it always toasts its fixed
text. Both contradict the claim as stated. -/
theorem C4_counterexample :
    notificationsOf (fetchDropdowns {} (.error { message := some "boom" })).trace = [] ∧
    (fetchDropdowns {} (.error { message := some "boom" })).uncaught = false ∧
    notificationsOf
        (catFetchCategories {} none (.error { message := some "Server down" })).trace =
      [.toastError "Failed to fetch categories"] := by
  refine ⟨rfl, rfl, rfl⟩

/-- C4 (amended): every failed request is caught inside its handler and never
propagates (`uncaught = false` on every error path); every handler except the
vendors page's `fetchDropdowns` surfaces exactly one transient notification — a
toast, or the sub-category page's auto-hiding banner; the mutation handlers show
the server-provided message when one exists (`jsOrD e.message fallback`), while
the list-fetch handlers show a fixed message regardless. -/
theorem C4_errors_surfaced :
    (∀ (s : CatState) (q : Option String) (e : ApiError),
      notificationsOf (catFetchCategories s q (.error e)).trace =
        [.toastError "Failed to fetch categories"] ∧
      (catFetchCategories s q (.error e)).uncaught = false) ∧
    (∀ (s : SubState) (e : ApiError),
      notificationsOf (subFetchCategories s (.error e)).trace =
        [.notifyBanner true "Failed to fetch categories"] ∧
      (subFetchCategories s (.error e)).uncaught = false) ∧
    (∀ (s : VendorsState) (e : ApiError),
      notificationsOf (fetchVendors s (.error e)).trace =
        [.toastError "Failed to fetch vendor list"] ∧
      (fetchVendors s (.error e)).uncaught = false) ∧
    (∀ (s : VendorsState) (e : ApiError),
      notificationsOf (fetchDropdowns s (.error e)).trace = [] ∧
      (fetchDropdowns s (.error e)).uncaught = false) ∧
    (∀ (s : CatState) (v : CatFormValues) (e : ApiError) (refetchRes : Outcome CategoryRow),
      notificationsOf
          (catOnSubmit { s with editingId := none } v (.error e) refetchRes).trace =
        [.toastError (jsOrD e.message "Failed to create category")] ∧
      notificationsOf
          (catOnSubmit { s with editingId := some "7" } v (.error e) refetchRes).trace =
        [.toastError (jsOrD e.message "Failed to update category")] ∧
      (catOnSubmit s v (.error e) refetchRes).uncaught = false) ∧
    (∀ (s : CatState) (c : CategoryRow) (e : ApiError) (refetchRes : Outcome CategoryRow),
      notificationsOf
          (catHandleConfirmDelete { s with categoryToDelete := some c }
            (.error e) refetchRes).trace =
        [.toastError (jsOrD e.message "Failed to delete category")] ∧
      (catHandleConfirmDelete { s with categoryToDelete := some c }
        (.error e) refetchRes).uncaught = false) ∧
    (∀ (s : BlogState) (q : Option String) (e : ApiError),
      notificationsOf (fetchBlogs s q (.error e)).trace =
        [.toastError "Failed to fetch blogs"] ∧
      (fetchBlogs s q (.error e)).uncaught = false) ∧
    (∀ (s : BlogState) (e : ApiError) (refetchRes : Outcome BlogRow),
      notificationsOf (blogOnSubmit { s with editingId := none } (.error e) refetchRes).trace =
        [.toastError (jsOrD e.message "Failed to create blog")] ∧
      notificationsOf
          (blogOnSubmit { s with editingId := some "7" } (.error e) refetchRes).trace =
        [.toastError (jsOrD e.message "Failed to update blog")] ∧
      (blogOnSubmit s (.error e) refetchRes).uncaught = false) ∧
    (∀ (s : BlogState) (id : String) (e : ApiError) (refetchRes : Outcome BlogRow),
      notificationsOf (blogHandleDelete s id true (.error e) refetchRes).trace =
        [.toastError (jsOrD e.message "Failed to delete blog")] ∧
      (blogHandleDelete s id true (.error e) refetchRes).uncaught = false) ∧
    (∀ (s : FaqState) (e : ApiError),
      notificationsOf (fetchFAQs s (.error e)).trace = [.toastError "Failed to fetch FAQs"] ∧
      notificationsOf (searchFAQs s s.searchText (.error e)).trace =
        [.toastError "Failed to search FAQs"] ∧
      (fetchFAQs s (.error e)).uncaught = false) ∧
    (∀ (s : FaqState) (e : ApiError) (refetchRes : Outcome FaqRaw),
      notificationsOf (faqOnSubmit { s with editingId := none } (.error e) refetchRes).trace =
        [.toastError (jsOrD e.message "Failed to create FAQ")] ∧
      notificationsOf
          (faqOnSubmit { s with editingId := some "7" } (.error e) refetchRes).trace =
        [.toastError (jsOrD e.message "Failed to update FAQ")] ∧
      (faqOnSubmit s (.error e) refetchRes).uncaught = false) ∧
    (∀ (s : FaqState) (id : String) (e : ApiError) (refetchRes : Outcome FaqRaw),
      notificationsOf (faqHandleDelete s id true (.error e) refetchRes).trace =
        [.toastError (jsOrD e.message "Failed to delete FAQ")] ∧
      (faqHandleDelete s id true (.error e) refetchRes).uncaught = false) ∧
    (∀ (s : VendorsState) (kycId vendorId newStatus : String) (e : ApiError)
        (refetchRes : Outcome VendorRow),
      notificationsOf (handleStatusChange s kycId vendorId newStatus (.error e) refetchRes).trace =
        [.toastError (jsOrD e.message "Failed to update vendor status")] ∧
      (handleStatusChange s kycId vendorId newStatus (.error e) refetchRes).uncaught = false) ∧
    (∀ (s : SubState) (ed : SubCategoryRow) (e : ApiError) (refetchRes : Outcome ParentCategory),
      notificationsOf
          (subOnSubmitForm { s with editingSubCategory := none } (.error e) refetchRes).trace =
        [.notifyBanner true (jsOrD e.message "Failed to create sub-category")] ∧
      notificationsOf
          (subOnSubmitForm { s with editingSubCategory := some ed } (.error e) refetchRes).trace =
        [.notifyBanner true (jsOrD e.message "Failed to update sub-category")] ∧
      (subOnSubmitForm s (.error e) refetchRes).uncaught = false) ∧
    (∀ (s : AuthState) (e : ApiError),
      notificationsOf (loginOnSubmit s (.error e)).trace =
        [.toastError (jsOrD e.message "Something went wrong. Please try again.")] ∧
      notificationsOf (registerOnSubmit s (.error e)).trace =
        [.toastError (jsOrD e.message "Something went wrong. Please try again.")] ∧
      (loginOnSubmit s (.error e)).uncaught = false ∧
      (registerOnSubmit s (.error e)).uncaught = false) := by
  refine ⟨?_, ?_, ?_, ?_, ?_, ?_, ?_, ?_, ?_, ?_, ?_, ?_, ?_, ?_, ?_⟩
  · intro s q e
    exact ⟨rfl, rfl⟩
  · intro s e
    exact ⟨rfl, rfl⟩
  · intro s e
    exact ⟨rfl, rfl⟩
  · intro s e
    exact ⟨rfl, rfl⟩
  · intro s v e refetchRes
    refine ⟨rfl, rfl, ?_⟩
    cases hid : s.editingId <;> simp [catOnSubmit, hid]
  · intro s c e refetchRes
    exact ⟨rfl, rfl⟩
  · intro s q e
    exact ⟨rfl, rfl⟩
  · intro s e refetchRes
    refine ⟨rfl, rfl, ?_⟩
    cases hid : s.editingId <;> simp [blogOnSubmit, updateBlog, createBlog, hid]
  · intro s id e refetchRes
    exact ⟨rfl, rfl⟩
  · intro s e
    exact ⟨rfl, rfl, rfl⟩
  · intro s e refetchRes
    refine ⟨rfl, rfl, ?_⟩
    cases hid : s.editingId <;> simp [faqOnSubmit, updateFAQ, createFAQ, hid]
  · intro s id e refetchRes
    exact ⟨rfl, rfl⟩
  · intro s kycId vendorId newStatus e refetchRes
    exact ⟨rfl, rfl⟩
  · intro s ed e refetchRes
    refine ⟨rfl, rfl, ?_⟩
    cases hed : s.editingSubCategory <;> simp [subOnSubmitForm, subOnSubmit, subHandleUpdate, hed]
  · intro s e
    exact ⟨rfl, rfl, rfl, rfl⟩

/-! ### C5: exactly one attempt per request, no automatic retry -/

/-- C5: in every modelled handler each list-fetch invocation issues exactly one
request; a mutation handler's trace never contains the same request twice (no
request is ever re-issued), and when the mutation's awaited request rejects, the
trace contains exactly that single attempt — no retry follows, and a new
attempt can only come from a fresh user action. (The response interceptor
`applyResponseError` only touches the store and the location — it issues no
request — and no handler holds a cancellation token: requests are never
programmatically cancelled.) -/
theorem C5_single_attempt :
    (∀ (s : CatState) (q : Option String) (res : Outcome CategoryRow),
      (requestsOf (catFetchCategories s q res).trace).length = 1) ∧
    (∀ (s : BlogState) (q : Option String) (res : Outcome BlogRow),
      (requestsOf (fetchBlogs s q res).trace).length = 1) ∧
    (∀ (s : FaqState) (res : Outcome FaqRaw),
      (requestsOf (fetchFAQs s res).trace).length = 1 ∧
      (requestsOf (searchFAQs s s.searchText res).trace).length = 1) ∧
    (∀ (s : VendorsState) (res : Outcome VendorRow) (dres : Except ApiError (Option DropBody)),
      (requestsOf (fetchVendors s res).trace).length = 1 ∧
      (requestsOf (fetchDropdowns s dres).trace).length = 1) ∧
    (∀ (s : SubState) (res : Outcome ParentCategory),
      (requestsOf (subFetchCategories s res).trace).length = 1) ∧
    (∀ (s : CatState) (v : CatFormValues) (mutRes refetchRes : Outcome CategoryRow),
      (requestsOf (catOnSubmit s v mutRes refetchRes).trace).Nodup ∧
      (∀ e : ApiError,
        requestsOf (catOnSubmit s v (.error e) refetchRes).trace = [catMutationReq s])) ∧
    (∀ (s : CatState) (c : CategoryRow) (delRes refetchRes : Outcome CategoryRow),
      (requestsOf (catHandleConfirmDelete s delRes refetchRes).trace).Nodup ∧
      (∀ e : ApiError,
        (requestsOf (catHandleConfirmDelete { s with categoryToDelete := some c }
          (.error e) refetchRes).trace).length = 1)) ∧
    (∀ (s : BlogState) (mutRes refetchRes : Outcome BlogRow),
      (requestsOf (blogOnSubmit s mutRes refetchRes).trace).Nodup ∧
      (∀ e : ApiError,
        (requestsOf (blogOnSubmit s (.error e) refetchRes).trace).length = 1)) ∧
    (∀ (s : BlogState) (id : String) (delRes refetchRes : Outcome BlogRow),
      (requestsOf (blogHandleDelete s id true delRes refetchRes).trace).Nodup ∧
      requestsOf (blogHandleDelete s id false delRes refetchRes).trace = [] ∧
      (∀ e : ApiError,
        (requestsOf (blogHandleDelete s id true (.error e) refetchRes).trace).length = 1)) ∧
    (∀ (s : FaqState) (mutRes refetchRes : Outcome FaqRaw),
      (requestsOf (faqOnSubmit s mutRes refetchRes).trace).Nodup ∧
      (∀ e : ApiError,
        (requestsOf (faqOnSubmit s (.error e) refetchRes).trace).length = 1)) ∧
    (∀ (s : FaqState) (id : String) (delRes refetchRes : Outcome FaqRaw),
      (requestsOf (faqHandleDelete s id true delRes refetchRes).trace).Nodup ∧
      requestsOf (faqHandleDelete s id false delRes refetchRes).trace = [] ∧
      (∀ e : ApiError,
        (requestsOf (faqHandleDelete s id true (.error e) refetchRes).trace).length = 1)) ∧
    (∀ (s : VendorsState) (kycId vendorId newStatus : String)
        (res refetchRes : Outcome VendorRow),
      (requestsOf (handleStatusChange s kycId vendorId newStatus res refetchRes).trace).Nodup ∧
      (∀ e : ApiError,
        (requestsOf
          (handleStatusChange s kycId vendorId newStatus (.error e) refetchRes).trace).length
          = 1)) ∧
    (∀ (s : SubState) (mutRes refetchRes : Outcome ParentCategory),
      (requestsOf (subOnSubmitForm s mutRes refetchRes).trace).Nodup ∧
      (∀ e : ApiError,
        (requestsOf (subOnSubmitForm s (.error e) refetchRes).trace).length ≤ 1)) ∧
    (∀ (s : AuthState) (res : Except ApiError (Nat × Option LoginBody)),
      (requestsOf (loginOnSubmit s res).trace).length = 1 ∧
      (requestsOf (registerOnSubmit s res).trace).length = 1) ∧
    (∀ (s : P001State) (name descr : String),
      requestsOf (p001OnSubmit s name descr).trace = []) := by
  refine ⟨?_, ?_, ?_, ?_, ?_, ?_, ?_, ?_, ?_, ?_, ?_, ?_, ?_, ?_, ?_⟩
  · intro s q res
    cases res <;> simp [catFetchCategories, requestsOf, Effect.isRequest]
  · intro s q res
    cases res <;> simp [fetchBlogs, requestsOf, Effect.isRequest]
  · intro s res
    cases res <;> simp [fetchFAQs, searchFAQs, requestsOf, Effect.isRequest]
  · intro s res dres
    cases res <;> cases dres <;>
      simp [fetchVendors, fetchDropdowns, requestsOf, Effect.isRequest]
  · intro s res
    cases res <;> simp [subFetchCategories, requestsOf, Effect.isRequest]
  · intro s v mutRes refetchRes
    constructor
    · rcases mutRes with e | b
      · cases hid : s.editingId <;>
          simp [catOnSubmit, catMutationReq, requestsOf, Effect.isRequest, hid]
      · cases b with
        | none =>
          cases hid : s.editingId <;>
            simp [catOnSubmit, catMutationReq, requestsOf, Effect.isRequest, hid]
        | some body =>
          cases hid : s.editingId
          · by_cases hsucc : body.success = true ∨ body.status = 200 <;> cases refetchRes <;>
              simp [catOnSubmit, catMutationReq, catFetchCategories, requestsOf,
                Effect.isRequest, hid, hsucc]
          · cases refetchRes <;>
              simp [catOnSubmit, catMutationReq, catFetchCategories, requestsOf,
                Effect.isRequest, hid]
    · intro e
      cases hid : s.editingId <;>
        simp [catOnSubmit, catMutationReq, requestsOf, Effect.isRequest, hid]
  · intro s c delRes refetchRes
    constructor
    · cases hdel : s.categoryToDelete with
      | none => simp [catHandleConfirmDelete, hdel, requestsOf]
      | some c₀ =>
        rcases delRes with e | db
        · simp [catHandleConfirmDelete, hdel, requestsOf, Effect.isRequest]
        · cases refetchRes <;>
            simp [catHandleConfirmDelete, catFetchCategories, hdel, requestsOf, Effect.isRequest]
    · intro e
      simp [catHandleConfirmDelete, requestsOf, Effect.isRequest]
  · intro s mutRes refetchRes
    constructor
    · rcases mutRes with e | b
      · cases hid : s.editingId <;>
          simp [blogOnSubmit, updateBlog, createBlog, requestsOf, Effect.isRequest, hid]
      · cases b with
        | none =>
          cases hid : s.editingId <;>
            simp [blogOnSubmit, updateBlog, createBlog, requestsOf, Effect.isRequest, hid]
        | some body =>
          cases hid : s.editingId <;> cases refetchRes <;>
            simp [blogOnSubmit, updateBlog, createBlog, fetchBlogs, requestsOf,
              Effect.isRequest, hid]
    · intro e
      cases hid : s.editingId <;>
        simp [blogOnSubmit, updateBlog, createBlog, requestsOf, Effect.isRequest, hid]
  · intro s id delRes refetchRes
    refine ⟨?_, ?_, ?_⟩
    · rcases delRes with e | b
      · simp [blogHandleDelete, deleteBlog, requestsOf, Effect.isRequest]
      · cases b with
        | none => simp [blogHandleDelete, deleteBlog, requestsOf, Effect.isRequest]
        | some body =>
          cases refetchRes <;>
            simp [blogHandleDelete, deleteBlog, fetchBlogs, requestsOf, Effect.isRequest]
    · simp [blogHandleDelete, requestsOf]
    · intro e
      simp [blogHandleDelete, deleteBlog, requestsOf, Effect.isRequest]
  · intro s mutRes refetchRes
    constructor
    · rcases mutRes with e | b
      · cases hid : s.editingId <;>
          simp [faqOnSubmit, updateFAQ, createFAQ, requestsOf, Effect.isRequest, hid]
      · cases b with
        | none =>
          cases hid : s.editingId <;>
            simp [faqOnSubmit, updateFAQ, createFAQ, requestsOf, Effect.isRequest, hid]
        | some body =>
          cases hid : s.editingId <;> by_cases hst : s.searchText = "" <;> cases refetchRes <;>
            simp [faqOnSubmit, updateFAQ, createFAQ, faqRefresh, fetchFAQs, searchFAQs,
              requestsOf, Effect.isRequest, hid, hst]
    · intro e
      cases hid : s.editingId <;>
        simp [faqOnSubmit, updateFAQ, createFAQ, requestsOf, Effect.isRequest, hid]
  · intro s id delRes refetchRes
    refine ⟨?_, ?_, ?_⟩
    · rcases delRes with e | b
      · simp [faqHandleDelete, deleteFAQ, requestsOf, Effect.isRequest]
      · cases b with
        | none => simp [faqHandleDelete, deleteFAQ, requestsOf, Effect.isRequest]
        | some body =>
          by_cases hst : s.searchText = "" <;> cases refetchRes <;>
            simp [faqHandleDelete, deleteFAQ, faqRefresh, fetchFAQs, searchFAQs,
              requestsOf, Effect.isRequest, hst]
    · simp [faqHandleDelete, requestsOf]
    · intro e
      simp [faqHandleDelete, deleteFAQ, requestsOf, Effect.isRequest]
  · intro s kycId vendorId newStatus res refetchRes
    constructor
    · rcases res with e | b
      · simp [handleStatusChange, requestsOf, Effect.isRequest]
      · cases b with
        | none => simp [handleStatusChange, requestsOf, Effect.isRequest]
        | some body =>
          by_cases hok : body.status = 200 || body.success <;> cases refetchRes <;>
            simp [handleStatusChange, fetchVendors, requestsOf, Effect.isRequest, hok]
    · intro e
      simp [handleStatusChange, requestsOf, Effect.isRequest]
  · intro s mutRes refetchRes
    constructor
    · cases hed : s.editingSubCategory <;> rcases mutRes with e | b
      · simp [subOnSubmitForm, subOnSubmit, hed, requestsOf, Effect.isRequest]
      · cases b with
        | none => simp [subOnSubmitForm, subOnSubmit, hed, requestsOf, Effect.isRequest]
        | some body =>
          cases refetchRes <;>
            simp [subOnSubmitForm, subOnSubmit, subFetchCategories, hed,
              requestsOf, Effect.isRequest]
      · simp [subOnSubmitForm, subHandleUpdate, hed, requestsOf, Effect.isRequest]
      · cases b with
        | none => simp [subOnSubmitForm, subHandleUpdate, hed, requestsOf, Effect.isRequest]
        | some body =>
          cases refetchRes <;>
            simp [subOnSubmitForm, subHandleUpdate, subFetchCategories, hed,
              requestsOf, Effect.isRequest]
    · intro e
      cases hed : s.editingSubCategory <;>
        simp [subOnSubmitForm, subOnSubmit, subHandleUpdate, hed, requestsOf, Effect.isRequest]
  · intro s res
    rcases res with e | p
    · constructor <;> simp [loginOnSubmit, registerOnSubmit, requestsOf, Effect.isRequest]
    · obtain ⟨status, body⟩ := p
      cases body with
      | none =>
        constructor
        · unfold loginOnSubmit
          dsimp only
          split_ifs <;> simp [requestsOf, Effect.isRequest]
        · unfold registerOnSubmit
          dsimp only
          split_ifs <;> simp [requestsOf, Effect.isRequest]
      | some b =>
        constructor
        · unfold loginOnSubmit
          dsimp only
          split_ifs <;> simp [requestsOf, Effect.isRequest]
        · unfold registerOnSubmit
          dsimp only
          split_ifs <;> simp [requestsOf, Effect.isRequest]
  · intro s name descr
    simp [p001OnSubmit, requestsOf, Effect.isRequest]

/-! ### C9: busy flags -/

/-- C9 counterexample: the FAQ page's `handleDelete` awaits the delete request
but never sets any busy flag — its trace contains a request and no flag write —
contradicting the claim that every async delete handler sets its busy flag
before awaiting. (The blog page's `handleDelete` is identical.) -/
theorem C9_counterexample :
    (faqHandleDelete {} "7" true (.error {}) (.error {})).trace.filter Effect.isSetFlag = [] ∧
    (faqHandleDelete {} "7" true (.error {}) (.error {})).trace.filter Effect.isRequest ≠ [] := by
  refine ⟨rfl, by decide⟩

/-- C9 (amended): every async handler that manages a busy flag (`isLoading`,
`isFetching`, `isDeleting`, `isUpdating`) sets it before awaiting its request —
the trace begins with the busy write — and clears it in `finally`: on every
outcome, success or rejection, the final state has the flag back at its idle
value and the last trace entry is the idle write. The blog and FAQ delete click
handlers manage no busy flag at all (see the counterexample). -/
theorem C9_busy_flags :
    (∀ (s : CatState) (q : Option String) (res : Outcome CategoryRow),
      (catFetchCategories s q res).state.isFetching = false ∧
      (catFetchCategories s q res).trace.head? = some (.setFlag "isFetching" true) ∧
      (catFetchCategories s q res).trace.getLast? = some (.setFlag "isFetching" false)) ∧
    (∀ (s : CatState) (v : CatFormValues) (mutRes refetchRes : Outcome CategoryRow),
      (catOnSubmit s v mutRes refetchRes).state.isLoading = false ∧
      (catOnSubmit s v mutRes refetchRes).trace.head? = some (.setFlag "isLoading" true) ∧
      (catOnSubmit s v mutRes refetchRes).trace.getLast? = some (.setFlag "isLoading" false)) ∧
    (∀ (s : CatState) (c : CategoryRow) (delRes refetchRes : Outcome CategoryRow),
      (catHandleConfirmDelete { s with categoryToDelete := some c }
        delRes refetchRes).state.isDeleting = false ∧
      (catHandleConfirmDelete { s with categoryToDelete := some c }
        delRes refetchRes).trace.head? = some (.setFlag "isDeleting" true) ∧
      (catHandleConfirmDelete { s with categoryToDelete := some c }
        delRes refetchRes).trace.getLast? = some (.setFlag "isDeleting" false)) ∧
    (∀ (s : BlogState) (q : Option String) (res : Outcome BlogRow),
      (fetchBlogs s q res).state.isFetching = false ∧
      (fetchBlogs s q res).trace.head? = some (.setFlag "isFetching" true) ∧
      (fetchBlogs s q res).trace.getLast? = some (.setFlag "isFetching" false)) ∧
    (∀ (s : BlogState) (mutRes refetchRes : Outcome BlogRow),
      (blogOnSubmit s mutRes refetchRes).state.isLoading = false ∧
      (blogOnSubmit s mutRes refetchRes).trace.head? = some (.setFlag "isLoading" true) ∧
      (blogOnSubmit s mutRes refetchRes).trace.getLast? = some (.setFlag "isLoading" false)) ∧
    (∀ (s : FaqState) (res : Outcome FaqRaw),
      (fetchFAQs s res).state.isFetching = false ∧
      (fetchFAQs s res).trace.head? = some (.setFlag "isFetching" true) ∧
      (searchFAQs s s.searchText res).state.isFetching = false ∧
      (searchFAQs s s.searchText res).trace.getLast? = some (.setFlag "isFetching" false)) ∧
    (∀ (s : FaqState) (mutRes refetchRes : Outcome FaqRaw),
      (faqOnSubmit s mutRes refetchRes).state.isLoading = false ∧
      (faqOnSubmit s mutRes refetchRes).trace.head? = some (.setFlag "isLoading" true) ∧
      (faqOnSubmit s mutRes refetchRes).trace.getLast? = some (.setFlag "isLoading" false)) ∧
    (∀ (s : VendorsState) (res : Outcome VendorRow),
      (fetchVendors s res).state.isLoading = false ∧
      (fetchVendors s res).trace.head? = some (.setFlag "isLoading" true) ∧
      (fetchVendors s res).trace.getLast? = some (.setFlag "isLoading" false)) ∧
    (∀ (s : VendorsState) (kycId vendorId newStatus : String)
        (res refetchRes : Outcome VendorRow),
      (handleStatusChange s kycId vendorId newStatus res refetchRes).state.isUpdating = none ∧
      (handleStatusChange s kycId vendorId newStatus res refetchRes).trace.head? =
        some (.setFlag "isUpdating" true) ∧
      (handleStatusChange s kycId vendorId newStatus res refetchRes).trace.getLast? =
        some (.setFlag "isUpdating" false)) ∧
    (∀ (s : SubState) (res : Outcome ParentCategory),
      (subFetchCategories s res).state.isFetching = false ∧
      (subFetchCategories s res).trace.head? = some (.setFlag "isFetching" true)) ∧
    (∀ (s : SubState) (mutRes refetchRes : Outcome ParentCategory),
      (subOnSubmitForm { s with editingSubCategory := none }
        mutRes refetchRes).state.isLoading = false ∧
      (subOnSubmitForm { s with editingSubCategory := none } mutRes refetchRes).trace.head? =
        some (.setFlag "isLoading" true) ∧
      (subOnSubmitForm { s with editingSubCategory := none } mutRes refetchRes).trace.getLast? =
        some (.setFlag "isLoading" false)) ∧
    (∀ (s : AuthState) (res : Except ApiError (Nat × Option LoginBody)),
      (loginOnSubmit s res).state.isLoading = false ∧
      (loginOnSubmit s res).trace.head? = some (.setFlag "isLoading" true) ∧
      (loginOnSubmit s res).trace.getLast? = some (.setFlag "isLoading" false) ∧
      (registerOnSubmit s res).state.isLoading = false ∧
      (registerOnSubmit s res).trace.getLast? = some (.setFlag "isLoading" false)) := by
  refine ⟨?_, ?_, ?_, ?_, ?_, ?_, ?_, ?_, ?_, ?_, ?_, ?_⟩
  · intro s q res
    cases res <;> simp [catFetchCategories]
  · intro s v mutRes refetchRes
    rcases mutRes with e | b
    · cases hid : s.editingId <;> simp [catOnSubmit, hid]
    · cases b with
      | none => cases hid : s.editingId <;> simp [catOnSubmit, hid]
      | some body =>
        cases hid : s.editingId
        · by_cases hsucc : body.success = true ∨ body.status = 200 <;> cases refetchRes <;>
            simp [catOnSubmit, catFetchCategories, hid, hsucc]
        · cases refetchRes <;> simp [catOnSubmit, catFetchCategories, hid]
  · intro s c delRes refetchRes
    rcases delRes with e | db
    · simp [catHandleConfirmDelete]
    · cases refetchRes <;> simp [catHandleConfirmDelete, catFetchCategories]
  · intro s q res
    cases res <;> simp [fetchBlogs]
  · intro s mutRes refetchRes
    rcases mutRes with e | b
    · cases hid : s.editingId <;> simp [blogOnSubmit, updateBlog, createBlog, hid]
    · cases b with
      | none => cases hid : s.editingId <;> simp [blogOnSubmit, updateBlog, createBlog, hid]
      | some body =>
        cases hid : s.editingId <;> cases refetchRes <;>
          simp [blogOnSubmit, updateBlog, createBlog, fetchBlogs, hid]
  · intro s res
    cases res <;> simp [fetchFAQs, searchFAQs]
  · intro s mutRes refetchRes
    rcases mutRes with e | b
    · cases hid : s.editingId <;> simp [faqOnSubmit, updateFAQ, createFAQ, hid]
    · cases b with
      | none => cases hid : s.editingId <;> simp [faqOnSubmit, updateFAQ, createFAQ, hid]
      | some body =>
        cases hid : s.editingId <;> by_cases hst : s.searchText = "" <;> cases refetchRes <;>
          simp [faqOnSubmit, updateFAQ, createFAQ, faqRefresh, fetchFAQs, searchFAQs, hid, hst]
  · intro s res
    cases res <;> simp [fetchVendors]
  · intro s kycId vendorId newStatus res refetchRes
    rcases res with e | b
    · simp [handleStatusChange]
    · cases b with
      | none => simp [handleStatusChange]
      | some body =>
        by_cases hok : body.status = 200 || body.success <;> cases refetchRes <;>
          simp [handleStatusChange, fetchVendors, hok]
  · intro s res
    cases res <;> simp [subFetchCategories]
  · intro s mutRes refetchRes
    rcases mutRes with e | b
    · simp [subOnSubmitForm, subOnSubmit]
    · cases b with
      | none => simp [subOnSubmitForm, subOnSubmit]
      | some body =>
        cases refetchRes <;> simp [subOnSubmitForm, subOnSubmit, subFetchCategories]
  · intro s res
    rcases res with e | p
    · simp [loginOnSubmit, registerOnSubmit]
    · obtain ⟨status, body⟩ := p
      cases body with
      | none =>
        refine ⟨?_, ?_, ?_, ?_, ?_⟩ <;>
          first
            | (unfold loginOnSubmit
               dsimp only
               split_ifs <;> simp)
            | (unfold registerOnSubmit
               dsimp only
               split_ifs <;> simp)
      | some b =>
        refine ⟨?_, ?_, ?_, ?_, ?_⟩ <;>
          first
            | (unfold loginOnSubmit
               dsimp only
               split_ifs <;> simp)
            | (unfold registerOnSubmit
               dsimp only
               split_ifs <;> simp)

/-! ### C8: server-assigned identifiers -/

/-- C8 counterexample: the FAQ page staged at the `/faq` route — whose
`onSubmit` (faq/page.tsx lines 101-113) the claim itself cites — fabricates an
identifier client-side. Submitting its form issues no request at all, yet a new
row with the locally computed id `faqs.length + 1 = 4` enters the displayed
list, whose seed rows 1-3 are hardcoded, not fetched. The legacy Add Category
page (src/unnamed/part_001) does the same (`categories.length + 1 = 5` over
hardcoded seed rows 1-4, no request). -/
theorem C8_counterexample :
    (routedFaqOnSubmit {} "How can I track my order?"
        "Open the dashboard and follow the order status link.").state.faqs.head?.map (·.id)
      = some 4 ∧
    requestsOf (routedFaqOnSubmit {} "How can I track my order?"
        "Open the dashboard and follow the order status link.").trace = [] ∧
    4 ∉ routedFaqInitialFaqs.map (·.id) ∧
    (p001OnSubmit {} "Test" "A brand new category").state.categories.head?.map (·.id)
      = some 5 ∧
    requestsOf (p001OnSubmit {} "Test" "A brand new category").trace = [] ∧
    5 ∉ p001InitialCategories.map (·.id) := by
  refine ⟨rfl, rfl, by decide, rfl, rfl, by decide⟩

/-- C8 (amended): on the API-connected pages every identifier held in list
state comes from a backend response — the API FAQ variant (part_003) maps each
row's id to the response's `_id || id`, the category and blog pages store
exactly the fetched rows, the vendors page stores exactly the fetched rows, and
every flattened sub-category row's id is a `subcategory_id` from the fetched
categories. The two static demo pages — the routed FAQ page (faq/page.tsx) and
the legacy Add Category variant (part_001) — instead seed hardcoded ids and
fabricate each new row's id locally as `length + 1` without issuing any
request. -/
theorem C8_server_assigned_ids :
    (∀ raws : List FaqRaw,
      (raws.map formatFaq).map (·.id) = raws.map (fun r => jsOr r._id r.id)) ∧
    (∀ (s : CatState) (q : Option String) (rb : RespBody CategoryRow)
        (rows : List CategoryRow),
      (catFetchCategories s q (.ok (some { rb with data := some rows }))).state.categories
        = rows) ∧
    (∀ (s : BlogState) (q : Option String) (rb : RespBody BlogRow) (rows : List BlogRow),
      (fetchBlogs s q (.ok (some { rb with data := some rows }))).state.blogs = rows ∧
      (fetchBlogs s q (.ok (some { rb with data := some rows }))).state.filteredBlogs = rows) ∧
    (∀ (s : VendorsState) (rb : RespBody VendorRow) (rows : List VendorRow),
      (fetchVendors s (.ok (some { rb with status := 200, data := some rows }))).state.rowData
        = rows) ∧
    (∀ cats : List ParentCategory, ∀ row ∈ flattenSubCats cats,
      ∃ c ∈ cats, ∃ sub ∈ c.subcategories.getD [], row.id = sub.subcategory_id) ∧
    (∀ (s : RoutedFaqState) (question answer : String),
      (routedFaqOnSubmit s question answer).state.faqs.head?.map (·.id) =
        some (s.faqs.length + 1) ∧
      requestsOf (routedFaqOnSubmit s question answer).trace = []) ∧
    (∀ (s : P001State) (name descr : String),
      (p001OnSubmit s name descr).state.categories.head?.map (·.id) =
        some (s.categories.length + 1) ∧
      requestsOf (p001OnSubmit s name descr).trace = []) := by
  refine ⟨?_, ?_, ?_, ?_, ?_, ?_, ?_⟩
  · intro raws
    simp [formatFaq]
  · intro s q rb rows
    simp [catFetchCategories]
  · intro s q rb rows
    constructor <;> simp [fetchBlogs]
  · intro s rb rows
    simp [fetchVendors]
  · intro cats row hrow
    rw [flattenSubCats] at hrow
    obtain ⟨c, hc, hsub⟩ := List.mem_flatMap.mp hrow
    refine ⟨c, hc, ?_⟩
    cases hcs : c.subcategories with
    | none => rw [hcs] at hsub; exact absurd hsub (by simp)
    | some subs =>
      rw [hcs] at hsub
      obtain ⟨sub, hs, heq⟩ := List.mem_map.mp hsub
      exact ⟨sub, by simpa [hcs] using hs, by rw [← heq]⟩
  · intro s question answer
    exact ⟨rfl, rfl⟩
  · intro s name descr
    exact ⟨rfl, rfl⟩

/-- Witness for C8's amended theorem on a concrete fetched category. -/
theorem C8_server_assigned_ids_witness :
    ∃ c ∈ [ParentCategory.mk "c1" "Cat" (some [SubCategoryEntry.mk "s1" "Sub" none])],
      ∃ sub ∈ c.subcategories.getD [],
        (SubCategoryRow.mk "s1" "Sub" "Cat" "c1" "" "Active").id = sub.subcategory_id :=
  C8_server_assigned_ids.2.2.2.2.1 _ _ (by decide)

end Upleex
